import Mathlib

/-!
Verification development for the SMASH reaction kernel
(src/crosssections.cc and src/distributions.cc).

The C++ code is shallowly embedded over the rational numbers.  External
collaborators that are not part of the sources (the particle registry,
the parametrized cross-section fits, Clebsch-Gordan coefficients,
pre-tabulated mass integrals, the string provider, transcendental
library functions and the random provider) are passed in explicitly
through a context structure `Ctx`; fallible routines return
`Except String`.
-/

namespace SmashXS

/-- Process types of a collision branch (processbranch.h interface). -/
inductive ProcessType where
  | Elastic
  | TwoToOne
  | TwoToTwo
  | StringSoft
  | StringHard
deriving DecidableEq, Repr

/-- Read-only particle-type record, as consumed by crosssections.cc.
Fields mirror the queries the kernel performs on the external registry:
`spin` stores twice the spin (2J), as in the data model of the registry. -/
structure ParticleType where
  pdg : Int
  name : String
  mass : ℚ
  width_at_pole : ℚ
  spin : ℕ
  charge : ℤ
  baryon_number : ℤ
  is_stable : Bool
  is_baryon : Bool
  is_meson : Bool
  is_hyperon : Bool
  is_Nstar : Bool
  is_Nstar1535 : Bool
  is_Deltastar : Bool
  is_nucleus : Bool
  is_deuteron : Bool
  is_dprime : Bool
  min_mass_kinematic : ℚ
  min_mass_spectral : ℚ
  iso_multiplet : ℕ
deriving DecidableEq, Repr

/-- PDG-code predicate: nucleon (p, n and antiparticles). -/
def is_nucleon_pdg (c : Int) : Bool :=
  c = 2212 || c = 2112 || c = -2212 || c = -2112

/-- PDG-code predicate: pion. -/
def is_pion_pdg (c : Int) : Bool :=
  c = 111 || c = 211 || c = -211

/-- PDG-code predicate: kaon. -/
def is_kaon_pdg (c : Int) : Bool :=
  c = 321 || c = -321 || c = 311 || c = -311

/-- PDG-code predicate: Delta(1232). -/
def is_Delta_pdg (c : Int) : Bool :=
  c = 2224 || c = 2214 || c = 2114 || c = 1114 ||
  c = -2224 || c = -2214 || c = -2114 || c = -1114

/-- Antiparticle sign of a PDG code: -1 for an antiparticle, +1 otherwise. -/
def antiparticle_sign_pdg (c : Int) : Int :=
  if c < 0 then -1 else 1

def ParticleType.is_nucleon (t : ParticleType) : Bool := is_nucleon_pdg t.pdg

def ParticleType.is_pion (t : ParticleType) : Bool := is_pion_pdg t.pdg

def ParticleType.is_kaon (t : ParticleType) : Bool := is_kaon_pdg t.pdg

def ParticleType.is_Delta (t : ParticleType) : Bool := is_Delta_pdg t.pdg

def ParticleType.antiparticle_sign (t : ParticleType) : Int :=
  antiparticle_sign_pdg t.pdg

/-- A collision branch: outgoing particle types, partial cross section
(weight, in mb), and process type.  String branches carry no products. -/
structure CollisionBranch where
  products : List ParticleType
  weight : ℚ
  ptype : ProcessType
deriving DecidableEq, Repr

abbrev CollisionBranchList := List CollisionBranch

/-- Numerical epsilon of the code, constants.h (value 1e-7). -/
def really_small : ℚ := 1 / 10000000

/-- Nucleon mass constant, constants.h. -/
def nucleon_mass : ℚ := 938 / 1000

/-- hbar times c in GeV fm, constants.h. -/
def hbarc : ℚ := 197327053 / 1000000000

/-- Conversion factor fm^2 to mb, constants.h. -/
def fm2_mb : ℚ := 1 / 10

/-- Modelled from the spec: kinematics.h is not among the sources; the
spec gives the center-of-momentum momentum squared as a function of the
Mandelstam s and the two masses. -/
def pCM_sqr_from_s (s m1 m2 : ℚ) : ℚ :=
  (s - (m1 + m2) ^ 2) * (s - (m1 - m2) ^ 2) / (4 * s)

/-- Modelled from the spec: same quantity as a function of sqrt(s). -/
def pCM_sqr (sqrts m1 m2 : ℚ) : ℚ :=
  pCM_sqr_from_s (sqrts * sqrts) m1 m2

/-- Modelled from the spec: center-of-momentum momentum magnitude from s;
the square root of the library is passed in as `rsqrt`. -/
def pCM_from_s (rsqrt : ℚ → ℚ) (s m1 m2 : ℚ) : ℚ :=
  rsqrt (pCM_sqr_from_s s m1 m2)

/-- Modelled from the spec: center-of-momentum momentum from sqrt(s). -/
def pCM (rsqrt : ℚ → ℚ) (sqrts m1 m2 : ℚ) : ℚ :=
  rsqrt (pCM_sqr sqrts m1 m2)

/-- Detailed balance factor R = sigma(AB to CD)/sigma(CD to AB) for
stable A, B, C, D; crosssections.cc lines 28-39.  Particle equality is
by identifier (PDG code). -/
def detailed_balance_factor_stable (s : ℚ) (a b c d : ParticleType) : ℚ :=
  let spin_factor : ℚ :=
    (((c.spin : ℚ) + 1) * ((d.spin : ℚ) + 1)) /
      (((a.spin : ℚ) + 1) * ((b.spin : ℚ) + 1))
  let symmetry_factor : ℚ :=
    (1 + (if a.pdg = b.pdg then (1 : ℚ) else 0)) /
      (1 + (if c.pdg = d.pdg then (1 : ℚ) else 0))
  let momentum_factor : ℚ :=
    pCM_sqr_from_s s c.mass d.mass / pCM_sqr_from_s s a.mass b.mass
  spin_factor * symmetry_factor * momentum_factor

/-- Spin degeneracy g(x) = 2 J_x + 1 as written in the spec (the `spin`
field stores 2J). -/
def gDegeneracy (x : ParticleType) : ℚ := 2 * ((x.spin : ℚ) / 2) + 1

/-- Kronecker delta on particle identifiers, as written in the spec. -/
def deltaInd (a b : ParticleType) : ℚ := if a.pdg = b.pdg then 1 else 0

/-- The stable-stable detailed-balance ratio exactly as the spec words it:
spin factor times symmetry factor times momentum factor. -/
def detailedBalanceStableSpec (s : ℚ) (a b c d : ParticleType) : ℚ :=
  (gDegeneracy c * gDegeneracy d / (gDegeneracy a * gDegeneracy b)) *
    ((1 + deltaInd a b) / (1 + deltaInd c d)) *
    (pCM_sqr_from_s s c.mass d.mass / pCM_sqr_from_s s a.mass b.mass)

/-- Breit-Wigner distribution, distributions.cc lines 22-29; the
mathematical constant pi of the library is passed in explicitly. -/
def breit_wigner (pi srts resonance_mass resonance_width : ℚ) : ℚ :=
  let s := srts * srts
  let A := s * resonance_width * resonance_width
  let B := s - resonance_mass * resonance_mass
  2 * s * resonance_width / (pi * (B * B + A))

/-- External environment of the kernel: the read-only particle registry,
the pre-tabulated mass integrals (keyed by the isospin-multiplet id of
the first particle), the Clebsch-Gordan service, the parametrization
registry (functions of s resp. sqrt(s)), the string provider, and the
mathematical library functions used by the code. -/
structure Ctx where
  find : Int → ParticleType
  tryFind : Int → Option ParticleType
  listAll : List ParticleType
  listNucleons : List ParticleType
  listAntiNucleons : List ParticleType
  listDeltas : List ParticleType
  listAntiDeltas : List ParticleType
  listBaryonResonances : List ParticleType
  listLightNuclei : List ParticleType
  spectralFunction : ParticleType → ℚ → ℚ
  partialInWidth : ParticleType → ℚ → ParticleType → ParticleType → ℚ
  integralNR : ℕ → ℚ → ℚ
  integralRR : ℕ → ParticleType → ℚ → ℚ
  integralRK : ℕ → ℚ → ℚ
  integralPiR : ℕ → ℚ → ℚ
  iTotRange : ParticleType → ParticleType → List ℤ
  cgSqr2to2 : ParticleType → ParticleType → ParticleType → ParticleType → ℤ → ℚ
  kplusnRatiosGet : ParticleType → ParticleType → ParticleType → ParticleType → ℚ
  rsqrt : ℚ → ℚ
  rpow : ℚ → ℚ → ℚ
  rexp : ℚ → ℚ
  mathPi : ℚ
  ppElastic : ℚ → ℚ
  npElastic : ℚ → ℚ
  ppbarElastic : ℚ → ℚ
  pipluspElastic : ℚ → ℚ
  piminuspElastic : ℚ → ℚ
  kpluspElasticBg : ℚ → ℚ
  kplusnElasticBg : ℚ → ℚ
  kminuspElasticBg : ℚ → ℚ
  kminusnElasticBg : ℚ → ℚ
  k0pElasticBg : ℚ → ℚ
  k0nElasticBg : ℚ → ℚ
  kbar0pElasticBg : ℚ → ℚ
  kbar0nElasticBg : ℚ → ℚ
  kpluspInelasticBg : ℚ → ℚ
  kplusnInelasticBg : ℚ → ℚ
  kminuspPiminussigmaplus : ℚ → ℚ
  kminuspPiplussigmaminus : ℚ → ℚ
  kminuspPi0sigma0 : ℚ → ℚ
  kminuspPi0lambda : ℚ → ℚ
  kminuspKbar0n : ℚ → ℚ
  kplusnK0p : ℚ → ℚ
  kminusnPiminussigma0 : ℚ → ℚ
  kminusnPi0sigmaminus : ℚ → ℚ
  kminusnPiminuslambda : ℚ → ℚ
  ppHighEnergy : ℚ → ℚ
  ppbarHighEnergy : ℚ → ℚ
  npHighEnergy : ℚ → ℚ
  npbarHighEnergy : ℚ → ℚ
  pipluspHighEnergy : ℚ → ℚ
  piminuspHighEnergy : ℚ → ℚ
  nnStringHard : ℚ → ℚ
  npiStringHard : ℚ → ℚ
  pipiStringHard : ℚ → ℚ
  ppbarTotal : ℚ → ℚ
  xsDiffractive : Int → Int → ℚ → ℚ × ℚ × ℚ

/-- Per-pair builder state: the two incoming particle types, their
effective masses, and sqrt(s); crosssections.cc lines 134-136. -/
structure cross_sections where
  t1 : ParticleType
  t2 : ParticleType
  m1_eff : ℚ
  m2_eff : ℚ
  sqrt_s : ℚ

/-- Modelled from the spec: cm_momentum() is declared in crosssections.h
which is not among the sources; it is the center-of-momentum momentum of
the incoming pair at their effective masses. -/
def cm_momentum (ctx : Ctx) (cs : cross_sections) : ℚ :=
  pCM ctx.rsqrt cs.sqrt_s cs.m1_eff cs.m2_eff

/-- Detailed balance factor for an unstable A and kaon B against stable
C, D; crosssections.cc lines 47-62. -/
def detailed_balance_factor_RK (ctx : Ctx) (sqrts pcm : ℚ)
    (a b c d : ParticleType) : ℚ :=
  let spin_factor : ℚ :=
    (((c.spin : ℚ) + 1) * ((d.spin : ℚ) + 1)) /
      (((a.spin : ℚ) + 1) * ((b.spin : ℚ) + 1))
  let symmetry_factor : ℚ :=
    (1 + (if a.pdg = b.pdg then (1 : ℚ) else 0)) /
      (1 + (if c.pdg = d.pdg then (1 : ℚ) else 0))
  let momentum_factor : ℚ :=
    pCM_sqr sqrts c.mass d.mass / (pcm * ctx.integralRK a.iso_multiplet sqrts)
  spin_factor * symmetry_factor * momentum_factor

/-- Detailed balance factor for unstable A and B against stable C, D;
crosssections.cc lines 70-85. -/
def detailed_balance_factor_RR (ctx : Ctx) (sqrts pcm : ℚ)
    (a b c d : ParticleType) : ℚ :=
  let spin_factor : ℚ :=
    (((c.spin : ℚ) + 1) * ((d.spin : ℚ) + 1)) /
      (((a.spin : ℚ) + 1) * ((b.spin : ℚ) + 1))
  let symmetry_factor : ℚ :=
    (1 + (if a.pdg = b.pdg then (1 : ℚ) else 0)) /
      (1 + (if c.pdg = d.pdg then (1 : ℚ) else 0))
  let momentum_factor : ℚ :=
    pCM_sqr sqrts c.mass d.mass /
      (pcm * ctx.integralRR a.iso_multiplet b sqrts)
  spin_factor * symmetry_factor * momentum_factor

/-- Add a 2-to-2 channel to a branch list given a lazily evaluated cross
section; the cross section is only computed above the spectral-mass
threshold, and the branch is only kept above really_small;
crosssections.cc lines 94-108. -/
def add_channel (process_list : CollisionBranchList)
    (get_xsection : Unit → ℚ) (sqrts : ℚ)
    (type_a type_b : ParticleType) : CollisionBranchList :=
  let sqrt_s_min := type_a.min_mass_spectral + type_b.min_mass_spectral
  if sqrts ≤ sqrt_s_min then process_list
  else
    let xsection := get_xsection ()
    if really_small < xsection then
      process_list ++ [⟨[type_a, type_b], xsection, ProcessType.TwoToTwo⟩]
    else process_list

/-- Sum of all cross sections of a process list; crosssections.cc
lines 126-132. -/
def sum_xs_of (list : CollisionBranchList) : ℚ :=
  list.foldl (fun acc proc => acc + proc.weight) 0

/-- The error message of the elastic cross-section check, built exactly
as the stream output in nn_el / npi_el / nk_el. -/
def elastic_error_message (a b : ParticleType) (sig s : ℚ) : String :=
  "problem in CrossSections::elastic: a=" ++ a.name ++ " b=" ++ b.name ++
    " j_a=" ++ toString a.spin ++ " j_b=" ++ toString b.spin ++
    " sigma=" ++ toString sig ++ " s=" ++ toString s

/-- Elastic nucleon-nucleon parametrization selection and positivity
check; crosssections.cc lines 222-248. -/
def nn_el (ctx : Ctx) (cs : cross_sections) : Except String ℚ :=
  let pdg_a := cs.t1.pdg
  let pdg_b := cs.t2.pdg
  let s := cs.sqrt_s * cs.sqrt_s
  let sig_el : ℚ :=
    if pdg_a = pdg_b then ctx.ppElastic s
    else if pdg_a = -pdg_b then ctx.ppbarElastic s
    else ctx.npElastic s
  if 0 < sig_el then Except.ok sig_el
  else Except.error (elastic_error_message cs.t1 cs.t2 sig_el s)

/-- The nucleon-pion elastic table of npi_el: the parametrized cross
section selected by the nucleon and pion PDG codes; crosssections.cc
lines 260-313.  Unlisted pion codes leave the initial value 0. -/
def npi_el_sig (ctx : Ctx) (nucleon pion : Int) (s : ℚ) : ℚ :=
  if nucleon = 2212 then
    if pion = 211 then ctx.pipluspElastic s
    else if pion = -211 then ctx.piminuspElastic s
    else if pion = 111 then
      1 / 2 * (ctx.pipluspElastic s + ctx.piminuspElastic s)
    else 0
  else if nucleon = 2112 then
    if pion = 211 then ctx.piminuspElastic s
    else if pion = -211 then ctx.pipluspElastic s
    else if pion = 111 then
      1 / 2 * (ctx.pipluspElastic s + ctx.piminuspElastic s)
    else 0
  else if nucleon = -2212 then
    if pion = 211 then ctx.piminuspElastic s
    else if pion = -211 then ctx.pipluspElastic s
    else if pion = 111 then
      1 / 2 * (ctx.pipluspElastic s + ctx.piminuspElastic s)
    else 0
  else
    if pion = 211 then ctx.pipluspElastic s
    else if pion = -211 then ctx.piminuspElastic s
    else if pion = 111 then
      1 / 2 * (ctx.pipluspElastic s + ctx.piminuspElastic s)
    else 0

/-- Elastic nucleon-pion scattering; crosssections.cc lines 250-331.
The outer switch throws for a non-nucleon first code; otherwise the
table value is checked for positivity. -/
def npi_el (ctx : Ctx) (cs : cross_sections) : Except String ℚ :=
  let pdg_a := cs.t1.pdg
  let pdg_b := cs.t2.pdg
  let nucleon := if is_nucleon_pdg pdg_a then pdg_a else pdg_b
  let pion := if is_nucleon_pdg pdg_a then pdg_b else pdg_a
  let s := cs.sqrt_s * cs.sqrt_s
  if nucleon = 2212 ∨ nucleon = 2112 ∨ nucleon = -2212 ∨ nucleon = -2112 then
    let sig_el := npi_el_sig ctx nucleon pion s
    if 0 < sig_el then Except.ok sig_el
    else Except.error (elastic_error_message cs.t1 cs.t2 sig_el s)
  else
    Except.error
      "only the elastic cross section for proton-pion is implemented"

/-- The nucleon-kaon elastic table of nk_el; crosssections.cc
lines 343-413. -/
def nk_el_sig (ctx : Ctx) (nucleon kaon : Int) (s : ℚ) : ℚ :=
  if nucleon = 2212 then
    if kaon = 321 then ctx.kpluspElasticBg s
    else if kaon = -321 then ctx.kminuspElasticBg s
    else if kaon = 311 then ctx.k0pElasticBg s
    else if kaon = -311 then ctx.kbar0pElasticBg s
    else 0
  else if nucleon = 2112 then
    if kaon = 321 then ctx.kplusnElasticBg s
    else if kaon = -321 then ctx.kminusnElasticBg s
    else if kaon = 311 then ctx.k0nElasticBg s
    else if kaon = -311 then ctx.kbar0nElasticBg s
    else 0
  else if nucleon = -2212 then
    if kaon = 321 then ctx.kminuspElasticBg s
    else if kaon = -321 then ctx.kpluspElasticBg s
    else if kaon = 311 then ctx.kbar0pElasticBg s
    else if kaon = -311 then ctx.k0pElasticBg s
    else 0
  else
    if kaon = 321 then ctx.kminusnElasticBg s
    else if kaon = -321 then ctx.kplusnElasticBg s
    else if kaon = 311 then ctx.kbar0nElasticBg s
    else if kaon = -311 then ctx.k0nElasticBg s
    else 0

/-- Elastic nucleon-kaon scattering; crosssections.cc lines 333-426. -/
def nk_el (ctx : Ctx) (cs : cross_sections) : Except String ℚ :=
  let pdg_a := cs.t1.pdg
  let pdg_b := cs.t2.pdg
  let nucleon := if is_nucleon_pdg pdg_a then pdg_a else pdg_b
  let kaon := if is_nucleon_pdg pdg_a then pdg_b else pdg_a
  let s := cs.sqrt_s * cs.sqrt_s
  if nucleon = 2212 ∨ nucleon = 2112 ∨ nucleon = -2212 ∨ nucleon = -2112 then
    let sig_el := nk_el_sig ctx nucleon kaon s
    if 0 < sig_el then Except.ok sig_el
    else Except.error (elastic_error_message cs.t1 cs.t2 sig_el s)
  else
    Except.error "elastic cross section for antinucleon-kaon not implemented"

/-- Elastic parametrization dispatch by pair class; crosssections.cc
lines 202-220. -/
def elastic_parametrization (ctx : Ctx) (cs : cross_sections) :
    Except String ℚ :=
  let pdg_a := cs.t1.pdg
  let pdg_b := cs.t2.pdg
  if (is_nucleon_pdg pdg_a && is_pion_pdg pdg_b) ||
      (is_nucleon_pdg pdg_b && is_pion_pdg pdg_a) then
    npi_el ctx cs
  else if (is_nucleon_pdg pdg_a && is_kaon_pdg pdg_b) ||
      (is_nucleon_pdg pdg_b && is_kaon_pdg pdg_a) then
    nk_el ctx cs
  else if is_nucleon_pdg pdg_a && is_nucleon_pdg pdg_b &&
      decide (antiparticle_sign_pdg pdg_a = antiparticle_sign_pdg pdg_b) then
    nn_el ctx cs
  else
    Except.ok 0

/-- The elastic branch: a constant cross section from the configuration
when the parameter is nonnegative, the parametrization otherwise;
crosssections.cc lines 188-200. -/
def elastic (ctx : Ctx) (cs : cross_sections) (elast_par : ℚ) :
    Except String CollisionBranch :=
  if 0 ≤ elast_par then
    Except.ok ⟨[cs.t1, cs.t2], elast_par, ProcessType.Elastic⟩
  else
    match elastic_parametrization ctx cs with
    | Except.ok x => Except.ok ⟨[cs.t1, cs.t2], x, ProcessType.Elastic⟩
    | Except.error e => Except.error e

/-- The policy bitset of included 2-to-2 reactions (forwarddeclarations.h
interface): Elastic, NN_to_NR, NN_to_DR, KN_to_KN, KN_to_KDelta,
Strangeness_exchange. -/
structure ReactionsBitSet where
  elastic : Bool
  nnToNR : Bool
  nnToDR : Bool
  knToKN : Bool
  knToKDelta : Bool
  strangenessEx : Bool
deriving DecidableEq, Repr

/-- bitset::any — true when at least one bit is set. -/
def ReactionsBitSet.any (b : ReactionsBitSet) : Bool :=
  b.elastic || b.nnToNR || b.nnToDR || b.knToKN || b.knToKDelta ||
    b.strangenessEx

/-- NNbar treatment policy. -/
inductive NNbarTreatment where
  | None
  | Resonances
  | Strings
deriving DecidableEq, Repr

/-- Guard of the NN to N Delta branch of the matrix element. -/
def guardND (type_a type_b : ParticleType) : Bool :=
  ((type_a.is_Delta && type_b.is_nucleon) ||
      (type_b.is_Delta && type_a.is_nucleon)) &&
    decide (type_a.antiparticle_sign = type_b.antiparticle_sign)

/-- Guard of the NN to N Nstar branch of the matrix element. -/
def guardNNstar (type_a type_b : ParticleType) : Bool :=
  ((type_a.is_Nstar && type_b.is_nucleon) ||
      (type_b.is_Nstar && type_a.is_nucleon)) &&
    decide (type_a.antiparticle_sign = type_b.antiparticle_sign)

/-- Guard of the NN to N Deltastar branch of the matrix element. -/
def guardNDstar (type_a type_b : ParticleType) : Bool :=
  ((type_a.is_Deltastar && type_b.is_nucleon) ||
      (type_b.is_Deltastar && type_a.is_nucleon)) &&
    decide (type_a.antiparticle_sign = type_b.antiparticle_sign)

/-- Guard of the NN to Delta Delta branch of the matrix element. -/
def guardDD (type_a type_b : ParticleType) : Bool :=
  (type_a.is_Delta && type_b.is_Delta) &&
    decide (type_a.antiparticle_sign = type_b.antiparticle_sign)

/-- Guard of the NN to Delta Nstar branch of the matrix element. -/
def guardNstarD (type_a type_b : ParticleType) : Bool :=
  ((type_a.is_Nstar && type_b.is_Delta) ||
      (type_b.is_Nstar && type_a.is_Delta)) &&
    decide (type_a.antiparticle_sign = type_b.antiparticle_sign)

/-- Guard of the NN to Delta Deltastar branch of the matrix element. -/
def guardDstarD (type_a type_b : ParticleType) : Bool :=
  ((type_a.is_Deltastar && type_b.is_Delta) ||
      (type_b.is_Deltastar && type_a.is_Delta)) &&
    decide (type_a.antiparticle_sign = type_b.antiparticle_sign)

/-- Guard of the deuteron-pion branch of the matrix element. -/
def guardDPi (type_a type_b : ParticleType) : Bool :=
  (type_a.is_deuteron && is_pion_pdg type_b.pdg) ||
    (type_b.is_deuteron && is_pion_pdg type_a.pdg)

/-- Matrix element squared for NN to resonance production;
crosssections.cc lines 1847-1927.  The library pow and exp are taken
from the context.  Branches that match a guard but none of its isospin
sub-cases fall through to the final 0, as the C++ control flow does. -/
def nn_to_resonance_matrix_element (ctx : Ctx) (sqrts : ℚ)
    (type_a type_b : ParticleType) (twoI : ℤ) : ℚ :=
  let m_a := type_a.mass
  let m_b := type_b.mass
  let msqr := 2 * (m_a * m_a + m_b * m_b)
  let w_a := type_a.width_at_pole
  let w_b := type_b.width_at_pole
  let uplmt := m_a + m_b + 3 * (w_a + w_b) + 3
  if uplmt < sqrts then 0
  else if guardND type_a type_b then
    68 / ctx.rpow (sqrts - 1104 / 1000) (1951 / 1000)
  else if guardNNstar type_a type_b then
    if twoI = 2 then 7 / msqr
    else if twoI = 0 then
      let parametrization := 14 / msqr
      if type_a.is_Nstar1535 || type_b.is_Nstar1535 then
        13 / 2 * parametrization
      else parametrization
    else 0
  else if guardNDstar type_a type_b then
    15 / msqr
  else if guardDD type_a type_b then
    if twoI = 2 then 45 / msqr
    else if twoI = 0 then 120 / msqr
    else 0
  else if guardNstarD type_a type_b then
    7 / msqr
  else if guardDstarD type_a type_b then
    if twoI = 2 then 15 / msqr
    else if twoI = 0 then 25 / msqr
    else 0
  else if guardDPi type_a type_b then
    55 / 1000 / ((sqrts - 2145 / 1000) ^ 2 + (65 / 1000) ^ 2) *
      (1 - ctx.rexp (-(sqrts - 2) * 20))
  else 0

/-- Generic NN to R1 R2 channel builder with a caller-supplied mass
integrator; crosssections.cc lines 1929-2001. -/
def find_nn_xsection_from_type (ctx : Ctx) (cs : cross_sections)
    (list_res_1 list_res_2 : List ParticleType)
    (integrator : ParticleType → ParticleType → ℚ) : CollisionBranchList :=
  let type_particle_a := cs.t1
  let type_particle_b := cs.t2
  let s := cs.sqrt_s * cs.sqrt_s
  list_res_1.flatMap fun type_res_1 =>
    list_res_2.flatMap fun type_res_2 =>
      if type_res_1.charge + type_res_2.charge ≠
          type_particle_a.charge + type_particle_b.charge then []
      else
        (ctx.iTotRange type_particle_a type_particle_b).filterMap fun twoI =>
          let isospin_factor := ctx.cgSqr2to2 type_particle_a type_particle_b
            type_res_1 type_res_2 twoI
          if |isospin_factor| < really_small then none
          else
            let lower_limit := type_res_1.min_mass_kinematic
            let upper_limit := cs.sqrt_s - type_res_2.mass
            if upper_limit - lower_limit < 1 / 1000 then none
            else
              let matrix_element := nn_to_resonance_matrix_element ctx
                cs.sqrt_s type_res_1 type_res_2 twoI
              if matrix_element ≤ 0 then none
              else
                let resonance_integral := integrator type_res_1 type_res_2
                let spin_factor :=
                  ((type_res_1.spin : ℚ) + 1) * ((type_res_2.spin : ℚ) + 1)
                let xsection := isospin_factor * spin_factor * matrix_element *
                  resonance_integral / (s * cm_momentum ctx cs)
                if really_small < xsection then
                  some ⟨[type_res_1, type_res_2], xsection,
                    ProcessType.TwoToTwo⟩
                else none

/-- Resonance-formation cross section for one candidate resonance;
crosssections.cc lines 468-503. -/
def formation (ctx : Ctx) (cs : cross_sections)
    (type_resonance : ParticleType) (cm_momentum_sqr : ℚ) : ℚ :=
  if type_resonance.charge ≠ cs.t1.charge + cs.t2.charge then 0
  else if type_resonance.baryon_number ≠
      cs.t1.baryon_number + cs.t2.baryon_number then 0
  else
    let partial_width := ctx.partialInWidth type_resonance cs.sqrt_s cs.t1
      cs.t2
    if partial_width ≤ 0 then 0
    else
      let spinfactor := ((type_resonance.spin : ℚ) + 1) /
        (((cs.t1.spin : ℚ) + 1) * ((cs.t2.spin : ℚ) + 1))
      let sym_factor : ℚ := if cs.t1.pdg = cs.t2.pdg then 2 else 1
      spinfactor * sym_factor * 2 * ctx.mathPi * ctx.mathPi /
        cm_momentum_sqr * ctx.spectralFunction type_resonance cs.sqrt_s *
        partial_width * hbarc * hbarc / fm2_mb

/-- Resonance formation (2 to 1); crosssections.cc lines 428-466. -/
def two_to_one (ctx : Ctx) (cs : cross_sections) : CollisionBranchList :=
  let p_cm_sqr := pCM_sqr cs.sqrt_s cs.m1_eff cs.m2_eff
  ctx.listAll.filterMap fun type_resonance =>
    if type_resonance.is_stable then none
    else if (!cs.t1.is_stable && decide (type_resonance.pdg = cs.t1.pdg)) ||
        (!cs.t2.is_stable && decide (type_resonance.pdg = cs.t2.pdg)) then
      none
    else
      let resonance_xsection := formation ctx cs type_resonance p_cm_sqr
      if really_small < resonance_xsection then
        some ⟨[type_resonance], resonance_xsection, ProcessType.TwoToOne⟩
      else none

/-- Resonance absorption to two nucleons (or two antinucleons);
crosssections.cc lines 1780-1845. -/
def bar_bar_to_nuc_nuc (ctx : Ctx) (cs : cross_sections)
    (is_anti_particles : Bool) : CollisionBranchList :=
  let type_a := cs.t1
  let type_b := cs.t2
  let s := cs.sqrt_s * cs.sqrt_s
  let p_cm_final := ctx.rsqrt (s - 4 * nucleon_mass * nucleon_mass) / 2
  let nuc_or_anti_nuc :=
    if is_anti_particles then ctx.listAntiNucleons else ctx.listNucleons
  nuc_or_anti_nuc.flatMap fun nuc_a =>
    nuc_or_anti_nuc.flatMap fun nuc_b =>
      if type_a.charge + type_b.charge ≠ nuc_a.charge + nuc_b.charge then []
      else
        (ctx.iTotRange nuc_a nuc_b).filterMap fun twoI =>
          let isospin_factor := ctx.cgSqr2to2 type_a type_b nuc_a nuc_b twoI
          if |isospin_factor| < really_small then none
          else
            let matrix_element := nn_to_resonance_matrix_element ctx
              cs.sqrt_s type_a type_b twoI
            if matrix_element ≤ 0 then none
            else
              let spin_factor :=
                ((nuc_a.spin : ℚ) + 1) * ((nuc_b.spin : ℚ) + 1)
              let sym_fac_in : ℚ :=
                if type_a.iso_multiplet = type_b.iso_multiplet then 2 else 1
              let sym_fac_out : ℚ :=
                if nuc_a.iso_multiplet = nuc_b.iso_multiplet then 2 else 1
              let xsection := isospin_factor * spin_factor * sym_fac_in /
                sym_fac_out * p_cm_final * matrix_element /
                (s * cm_momentum ctx cs)
              if really_small < xsection then
                some ⟨[nuc_a, nuc_b], xsection, ProcessType.TwoToTwo⟩
              else none

/-- Nucleon-nucleon 2 to 2 channels; crosssections.cc lines 581-650. -/
def nn_xx (ctx : Ctx) (cs : cross_sections)
    (included_2to2 : ReactionsBitSet) : CollisionBranchList :=
  let sqrts := cs.sqrt_s
  let both_antinucleons :=
    decide (cs.t1.antiparticle_sign = -1) &&
      decide (cs.t2.antiparticle_sign = -1)
  let nuc_or_anti_nuc :=
    if both_antinucleons then ctx.listAntiNucleons else ctx.listNucleons
  let delta_or_anti_delta :=
    if both_antinucleons then ctx.listAntiDeltas else ctx.listDeltas
  let l1 :=
    if included_2to2.nnToNR then
      find_nn_xsection_from_type ctx cs ctx.listBaryonResonances
        nuc_or_anti_nuc
        (fun type_res_1 _ => ctx.integralNR type_res_1.iso_multiplet sqrts)
    else []
  let l2 :=
    if included_2to2.nnToDR then
      find_nn_xsection_from_type ctx cs ctx.listBaryonResonances
        delta_or_anti_delta
        (fun type_res_1 type_res_2 =>
          ctx.integralRR type_res_1.iso_multiplet type_res_2 sqrts)
    else []
  let l3 :=
    match ctx.tryFind 1000010020, ctx.tryFind (-1000010020),
        ctx.tryFind (-211), ctx.tryFind 111, ctx.tryFind 211 with
    | some deutron, some antideutron, some pim, some pi0, some pip =>
        find_nn_xsection_from_type ctx cs
          (if both_antinucleons then [antideutron] else [deutron])
          [pim, pi0, pip]
          (fun type_res_1 type_res_2 =>
            pCM ctx.rsqrt sqrts type_res_1.mass type_res_2.mass)
    | _, _, _, _, _ => []
  l1 ++ l2 ++ l3

/-- Baryon-baryon 2 to 2 except nucleon-nucleon; crosssections.cc
lines 554-579. -/
def bb_xx_except_nn (ctx : Ctx) (cs : cross_sections)
    (included_2to2 : ReactionsBitSet) : CollisionBranchList :=
  let type_a := cs.t1
  let type_b := cs.t2
  let same_sign :=
    decide (type_a.antiparticle_sign = type_b.antiparticle_sign)
  let any_nucleus := type_a.is_nucleus || type_b.is_nucleus
  if !same_sign && !any_nucleus then []
  else
    let anti_particles := decide (type_a.antiparticle_sign = -1)
    if type_a.is_nucleon || type_b.is_nucleon then
      if included_2to2.nnToNR then bar_bar_to_nuc_nuc ctx cs anti_particles
      else []
    else if type_a.is_Delta || type_b.is_Delta then
      if included_2to2.nnToDR then bar_bar_to_nuc_nuc ctx cs anti_particles
      else []
    else []

/-- One pending add_channel call: the lazy cross section and the two
outgoing types. -/
structure ChannelCandidate where
  get : Unit → ℚ
  a : ParticleType
  b : ParticleType

/-- Sequence of add_channel calls, in program order. -/
def add_channels (sqrts : ℚ) (init : CollisionBranchList)
    (cands : List ChannelCandidate) : CollisionBranchList :=
  cands.foldl (fun acc c => add_channel acc c.get sqrts c.a c.b) init

/-- Nucleon-kaon 2 to 2 channels: the per-species switch of
crosssections.cc lines 652-1041, transcribed case by case in program
order; every channel goes through add_channel. -/
def nk_xx (ctx : Ctx) (cs : cross_sections)
    (included_2to2 : ReactionsBitSet) : CollisionBranchList :=
  let a := cs.t1
  let b := cs.t2
  let type_nucleon := if is_nucleon_pdg a.pdg then a else b
  let type_kaon := if is_nucleon_pdg a.pdg then b else a
  let pdg_nucleon := type_nucleon.pdg
  let pdg_kaon := type_kaon.pdg
  let sqrts := cs.sqrt_s
  let s := sqrts * sqrts
  let sigma_kplusp := ctx.kpluspInelasticBg s
  let sigma_kplusn := ctx.kplusnInelasticBg s
  let ratio := fun (c d : ParticleType) =>
    ctx.kplusnRatiosGet type_nucleon type_kaon c d
  let seOn := included_2to2.strangenessEx
  let knOn := included_2to2.knToKN
  let kdOn := included_2to2.knToKDelta
  let cands : List ChannelCandidate :=
    if pdg_kaon = -321 then
      if pdg_nucleon = 2212 then
        (if seOn then
          [⟨fun _ => ctx.kminuspPiminussigmaplus sqrts, ctx.find (-211),
            ctx.find 3222⟩,
           ⟨fun _ => ctx.kminuspPiplussigmaminus sqrts, ctx.find 211,
            ctx.find 3112⟩,
           ⟨fun _ => ctx.kminuspPi0sigma0 sqrts, ctx.find 111,
            ctx.find 3212⟩,
           ⟨fun _ => ctx.kminuspPi0lambda sqrts, ctx.find 111,
            ctx.find 3122⟩]
         else []) ++
        (if knOn then
          [⟨fun _ => ctx.kminuspKbar0n s, ctx.find (-311), ctx.find 2112⟩]
         else [])
      else if pdg_nucleon = 2112 then
        if seOn then
          [⟨fun _ => ctx.kminusnPiminussigma0 sqrts, ctx.find (-211),
            ctx.find 3212⟩,
           ⟨fun _ => ctx.kminusnPi0sigmaminus sqrts, ctx.find 111,
            ctx.find 3112⟩,
           ⟨fun _ => ctx.kminusnPiminuslambda sqrts, ctx.find (-211),
            ctx.find 3122⟩]
        else []
      else if pdg_nucleon = -2212 then
        if kdOn then
          [⟨fun _ => sigma_kplusp * ratio (ctx.find (-311))
              (ctx.find (-2224)), ctx.find (-311), ctx.find (-2224)⟩,
           ⟨fun _ => sigma_kplusp * ratio (ctx.find (-321))
              (ctx.find (-2214)), ctx.find (-321), ctx.find (-2214)⟩]
        else []
      else if pdg_nucleon = -2112 then
        (if kdOn then
          [⟨fun _ => sigma_kplusn * ratio (ctx.find (-311))
              (ctx.find (-2214)), ctx.find (-311), ctx.find (-2214)⟩,
           ⟨fun _ => sigma_kplusn * ratio (ctx.find (-321))
              (ctx.find (-2114)), ctx.find (-321), ctx.find (-2114)⟩]
         else []) ++
        (if knOn then
          [⟨fun _ => ctx.kplusnK0p s, ctx.find (-311), ctx.find (-2212)⟩]
         else [])
      else []
    else if pdg_kaon = 321 then
      if pdg_nucleon = 2212 then
        if kdOn then
          [⟨fun _ => sigma_kplusp * ratio (ctx.find 311) (ctx.find 2224),
            ctx.find 311, ctx.find 2224⟩,
           ⟨fun _ => sigma_kplusp * ratio (ctx.find 321) (ctx.find 2214),
            ctx.find 321, ctx.find 2214⟩]
        else []
      else if pdg_nucleon = 2112 then
        (if kdOn then
          [⟨fun _ => sigma_kplusn * ratio (ctx.find 311) (ctx.find 2214),
            ctx.find 311, ctx.find 2214⟩,
           ⟨fun _ => sigma_kplusn * ratio (ctx.find 321) (ctx.find 2114),
            ctx.find 321, ctx.find 2114⟩]
         else []) ++
        (if knOn then
          [⟨fun _ => ctx.kplusnK0p s, ctx.find 311, ctx.find 2212⟩]
         else [])
      else if pdg_nucleon = -2212 then
        (if seOn then
          [⟨fun _ => ctx.kminuspPiminussigmaplus sqrts, ctx.find 211,
            ctx.find (-3222)⟩,
           ⟨fun _ => ctx.kminuspPiplussigmaminus sqrts, ctx.find (-211),
            ctx.find (-3112)⟩,
           ⟨fun _ => ctx.kminuspPi0sigma0 sqrts, ctx.find 111,
            ctx.find (-3212)⟩,
           ⟨fun _ => ctx.kminuspPi0lambda sqrts, ctx.find 111,
            ctx.find (-3122)⟩]
         else []) ++
        (if knOn then
          [⟨fun _ => ctx.kminuspKbar0n s, ctx.find 311, ctx.find (-2112)⟩]
         else [])
      else if pdg_nucleon = -2112 then
        if seOn then
          [⟨fun _ => ctx.kminusnPiminussigma0 sqrts, ctx.find 211,
            ctx.find (-3212)⟩,
           ⟨fun _ => ctx.kminusnPi0sigmaminus sqrts, ctx.find 111,
            ctx.find (-3112)⟩,
           ⟨fun _ => ctx.kminusnPiminuslambda sqrts, ctx.find 211,
            ctx.find (-3122)⟩]
        else []
      else []
    else if pdg_kaon = 311 then
      if pdg_nucleon = 2212 then
        (if kdOn then
          [⟨fun _ => sigma_kplusp * ratio (ctx.find 311) (ctx.find 2214),
            ctx.find 311, ctx.find 2214⟩,
           ⟨fun _ => sigma_kplusp * ratio (ctx.find 321) (ctx.find 2114),
            ctx.find 321, ctx.find 2114⟩]
         else []) ++
        (if knOn then
          [⟨fun _ => ctx.kplusnK0p s * ratio (ctx.find 321) (ctx.find 2112),
            ctx.find 321, ctx.find 2112⟩]
         else [])
      else if pdg_nucleon = 2112 then
        if kdOn then
          [⟨fun _ => sigma_kplusn * ratio (ctx.find 311) (ctx.find 2114),
            ctx.find 311, ctx.find 2114⟩,
           ⟨fun _ => sigma_kplusn * ratio (ctx.find 321) (ctx.find 1114),
            ctx.find 321, ctx.find 1114⟩]
        else []
      else if pdg_nucleon = -2112 then
        if knOn then
          [⟨fun _ => ctx.kminuspKbar0n s, ctx.find 321, ctx.find (-2212)⟩]
        else []
      else []
    else if pdg_kaon = -311 then
      if pdg_nucleon = 2112 then
        if knOn then
          [⟨fun _ => ctx.kminuspKbar0n s, ctx.find (-321), ctx.find 2212⟩]
        else []
      else if pdg_nucleon = -2212 then
        (if kdOn then
          [⟨fun _ => sigma_kplusp * ratio (ctx.find (-311))
              (ctx.find (-2214)), ctx.find (-311), ctx.find (-2214)⟩,
           ⟨fun _ => sigma_kplusp * ratio (ctx.find (-321))
              (ctx.find (-2114)), ctx.find (-321), ctx.find (-2114)⟩]
         else []) ++
        (if knOn then
          [⟨fun _ => ctx.kplusnK0p s * ratio (ctx.find (-321))
              (ctx.find (-2112)), ctx.find (-321), ctx.find (-2112)⟩]
         else [])
      else if pdg_nucleon = -2112 then
        if kdOn then
          [⟨fun _ => sigma_kplusn * ratio (ctx.find (-311))
              (ctx.find (-2114)), ctx.find (-311), ctx.find (-2114)⟩,
           ⟨fun _ => sigma_kplusn * ratio (ctx.find (-321))
              (ctx.find (-1114)), ctx.find (-321), ctx.find (-1114)⟩]
        else []
      else []
    else []
  add_channels sqrts [] cands

/-- Delta-kaon 2 to 2 channels (reverse KN to KDelta via detailed
balance); crosssections.cc lines 1043-1189. -/
def deltak_xx (ctx : Ctx) (cs : cross_sections)
    (included_2to2 : ReactionsBitSet) : CollisionBranchList :=
  if !included_2to2.knToKDelta then []
  else
    let a := cs.t1
    let b := cs.t2
    let type_delta := if is_Delta_pdg a.pdg then a else b
    let type_kaon := if is_Delta_pdg a.pdg then b else a
    let pdg_delta := type_delta.pdg
    let pdg_kaon := type_kaon.pdg
    let sqrts := cs.sqrt_s
    let s := sqrts * sqrts
    let pcm := cm_momentum ctx cs
    let rk := fun (c d : ParticleType) =>
      detailed_balance_factor_RK ctx sqrts pcm type_delta type_kaon c d
    let ratioRev := fun (c d : ParticleType) =>
      ctx.kplusnRatiosGet c d type_kaon type_delta
    let cands : List ChannelCandidate :=
      if (pdg_delta = 2224 ∧ pdg_kaon = 311) ∨
          (pdg_delta = 2214 ∧ pdg_kaon = 321) then
        [⟨fun _ => rk (ctx.find 2212) (ctx.find 321) *
            ratioRev (ctx.find 2212) (ctx.find 321) *
            ctx.kpluspInelasticBg s, ctx.find 2212, ctx.find 321⟩]
      else if (pdg_delta = -2224 ∧ pdg_kaon = -311) ∨
          (pdg_delta = -2214 ∧ pdg_kaon = -321) then
        [⟨fun _ => rk (ctx.find (-2212)) (ctx.find (-321)) *
            ratioRev (ctx.find (-2212)) (ctx.find (-321)) *
            ctx.kpluspInelasticBg s, ctx.find (-2212), ctx.find (-321)⟩]
      else if (pdg_delta = 2214 ∧ pdg_kaon = 311) ∨
          (pdg_delta = 2114 ∧ pdg_kaon = 321) then
        [⟨fun _ => rk (ctx.find 2112) (ctx.find 321) *
            ratioRev (ctx.find 2112) (ctx.find 321) *
            ctx.kplusnInelasticBg s, ctx.find 2112, ctx.find 321⟩,
         ⟨fun _ => rk (ctx.find 2212) (ctx.find 311) *
            ratioRev (ctx.find 2212) (ctx.find 311) *
            ctx.kpluspInelasticBg s, ctx.find 2212, ctx.find 311⟩]
      else if (pdg_delta = -2214 ∧ pdg_kaon = -311) ∨
          (pdg_delta = -2114 ∧ pdg_kaon = -321) then
        [⟨fun _ => rk (ctx.find (-2112)) (ctx.find (-321)) *
            ratioRev (ctx.find (-2112)) (ctx.find (-321)) *
            ctx.kplusnInelasticBg s, ctx.find (-2112), ctx.find (-321)⟩,
         ⟨fun _ => rk (ctx.find (-2212)) (ctx.find (-311)) *
            ratioRev (ctx.find (-2212)) (ctx.find (-311)) *
            ctx.kpluspInelasticBg s, ctx.find (-2212), ctx.find (-311)⟩]
      else if (pdg_delta = 2114 ∧ pdg_kaon = 311) ∨
          (pdg_delta = 1114 ∧ pdg_kaon = 321) then
        [⟨fun _ => rk (ctx.find 2112) (ctx.find 311) *
            ratioRev (ctx.find 2112) (ctx.find 311) *
            ctx.kplusnInelasticBg s, ctx.find 2112, ctx.find 311⟩]
      else if (pdg_delta = -2114 ∧ pdg_kaon = -311) ∨
          (pdg_delta = -1114 ∧ pdg_kaon = -321) then
        [⟨fun _ => rk (ctx.find (-2112)) (ctx.find (-311)) *
            ratioRev (ctx.find (-2112)) (ctx.find (-311)) *
            ctx.kplusnInelasticBg s, ctx.find (-2112), ctx.find (-311)⟩]
      else []
    add_channels sqrts [] cands

/-- Hyperon-pion 2 to 2 channels (reverse strangeness exchange);
crosssections.cc lines 1191-1387. -/
def ypi_xx (ctx : Ctx) (cs : cross_sections)
    (included_2to2 : ReactionsBitSet) : CollisionBranchList :=
  if !included_2to2.strangenessEx then []
  else
    let a := cs.t1
    let b := cs.t2
    let type_hyperon := if a.is_hyperon then a else b
    let type_pion := if a.is_hyperon then b else a
    let pdg_hyperon := type_hyperon.pdg
    let pdg_pion := type_pion.pdg
    let sqrts := cs.sqrt_s
    let s := sqrts * sqrts
    let db := fun (c d : ParticleType) =>
      detailed_balance_factor_stable s type_hyperon type_pion c d
    let cands : List ChannelCandidate :=
      if pdg_hyperon = 3212 ∧ pdg_pion = -211 then
        [⟨fun _ => db (ctx.find 2112) (ctx.find (-321)) *
            ctx.kminusnPiminussigma0 sqrts, ctx.find 2112, ctx.find (-321)⟩]
      else if pdg_hyperon = -3212 ∧ pdg_pion = 211 then
        [⟨fun _ => db (ctx.find (-2112)) (ctx.find 321) *
            ctx.kminusnPiminussigma0 sqrts, ctx.find (-2112), ctx.find 321⟩]
      else if pdg_hyperon = 3112 ∧ pdg_pion = 111 then
        [⟨fun _ => db (ctx.find 2112) (ctx.find (-321)) *
            ctx.kminusnPi0sigmaminus sqrts, ctx.find 2112, ctx.find (-321)⟩]
      else if pdg_hyperon = -3112 ∧ pdg_pion = 111 then
        [⟨fun _ => db (ctx.find (-2112)) (ctx.find 321) *
            ctx.kminusnPi0sigmaminus sqrts, ctx.find (-2112), ctx.find 321⟩]
      else if pdg_hyperon = 3122 ∧ pdg_pion = -211 then
        [⟨fun _ => db (ctx.find 2112) (ctx.find (-321)) *
            ctx.kminusnPiminuslambda sqrts, ctx.find 2112, ctx.find (-321)⟩]
      else if pdg_hyperon = -3122 ∧ pdg_pion = 211 then
        [⟨fun _ => db (ctx.find (-2112)) (ctx.find 321) *
            ctx.kminusnPiminuslambda sqrts, ctx.find (-2112), ctx.find 321⟩]
      else if pdg_hyperon = 3212 ∧ pdg_pion = 111 then
        [⟨fun _ => db (ctx.find 2212) (ctx.find (-321)) *
            ctx.kminuspPi0sigma0 sqrts, ctx.find 2212, ctx.find (-321)⟩]
      else if pdg_hyperon = -3212 ∧ pdg_pion = 111 then
        [⟨fun _ => db (ctx.find (-2212)) (ctx.find 321) *
            ctx.kminuspPi0sigma0 sqrts, ctx.find (-2212), ctx.find 321⟩]
      else if pdg_hyperon = 3112 ∧ pdg_pion = 211 then
        [⟨fun _ => db (ctx.find 2212) (ctx.find (-321)) *
            ctx.kminuspPiplussigmaminus sqrts, ctx.find 2212,
          ctx.find (-321)⟩]
      else if pdg_hyperon = -3112 ∧ pdg_pion = -211 then
        [⟨fun _ => db (ctx.find (-2212)) (ctx.find 321) *
            ctx.kminuspPiplussigmaminus sqrts, ctx.find (-2212),
          ctx.find 321⟩]
      else if pdg_hyperon = 3122 ∧ pdg_pion = 111 then
        [⟨fun _ => db (ctx.find 2212) (ctx.find (-321)) *
            ctx.kminuspPi0lambda sqrts, ctx.find 2212, ctx.find (-321)⟩]
      else if pdg_hyperon = -3122 ∧ pdg_pion = 111 then
        [⟨fun _ => db (ctx.find (-2212)) (ctx.find 321) *
            ctx.kminuspPi0lambda sqrts, ctx.find (-2212), ctx.find 321⟩]
      else if pdg_hyperon = 3222 ∧ pdg_pion = -211 then
        [⟨fun _ => db (ctx.find 2212) (ctx.find (-321)) *
            ctx.kminuspPiminussigmaplus sqrts, ctx.find 2212,
          ctx.find (-321)⟩]
      else if pdg_hyperon = -3222 ∧ pdg_pion = 211 then
        [⟨fun _ => db (ctx.find (-2212)) (ctx.find 321) *
            ctx.kminuspPiminussigmaplus sqrts, ctx.find (-2212),
          ctx.find 321⟩]
      else []
    add_channels sqrts [] cands

/-- The first loop of dpi_xx, pion-deuteron to nucleon-nucleon;
crosssections.cc lines 1394-1447.  A candidate is emitted only when its
cross section is strictly above really_small. -/
def dpi_xx_part1 (ctx : Ctx) (cs : cross_sections) : CollisionBranchList :=
  let sqrts := cs.sqrt_s
  let type_a := cs.t1
  let type_b := cs.t2
  if (type_a.is_deuteron && is_pion_pdg type_b.pdg) ||
      (type_b.is_deuteron && is_pion_pdg type_a.pdg) then
      let baryon_number := type_a.baryon_number + type_b.baryon_number
      let nuc := if 0 < baryon_number then ctx.listNucleons
        else ctx.listAntiNucleons
      let s := cs.sqrt_s * cs.sqrt_s
      nuc.flatMap fun nuc_a =>
        nuc.flatMap fun nuc_b =>
          if type_a.charge + type_b.charge ≠ nuc_a.charge + nuc_b.charge then
            []
          else
            (ctx.iTotRange nuc_a nuc_b).filterMap fun twoI =>
              let isospin_factor := ctx.cgSqr2to2 type_a type_b nuc_a nuc_b
                twoI
              if |isospin_factor| < really_small then none
              else
                let matrix_element := nn_to_resonance_matrix_element ctx
                  sqrts type_a type_b twoI
                if matrix_element ≤ 0 then none
                else
                  let spin_factor :=
                    ((nuc_a.spin : ℚ) + 1) * ((nuc_b.spin : ℚ) + 1)
                  let sym_fac_in : ℚ :=
                    if type_a.iso_multiplet = type_b.iso_multiplet then 2
                    else 1
                  let sym_fac_out : ℚ :=
                    if nuc_a.iso_multiplet = nuc_b.iso_multiplet then 2
                    else 1
                  let p_cm_final := pCM_from_s ctx.rsqrt s nuc_a.mass
                    nuc_b.mass
                  let xsection := isospin_factor * spin_factor * sym_fac_in /
                    sym_fac_out * p_cm_final * matrix_element /
                    (s * cm_momentum ctx cs)
                  if really_small < xsection then
                    some ⟨[nuc_a, nuc_b], xsection, ProcessType.TwoToTwo⟩
                  else none
    else []

/-- The second loop of dpi_xx, pion-deuteron to pion-d-prime;
crosssections.cc lines 1449-1499.  The branch is pushed without a
really_small check. -/
def dpi_xx_part2 (ctx : Ctx) (cs : cross_sections) : CollisionBranchList :=
  let sqrts := cs.sqrt_s
  let type_a := cs.t1
  let type_b := cs.t2
  if ((type_a.is_deuteron || type_a.is_dprime) && is_pion_pdg type_b.pdg) ||
      ((type_b.is_deuteron || type_b.is_dprime) &&
        is_pion_pdg type_a.pdg) then
      let type_pi := if is_pion_pdg type_a.pdg then type_a else type_b
      let type_nucleus := if type_a.is_nucleus then type_a else type_b
      let s := cs.sqrt_s * cs.sqrt_s
      ctx.listLightNuclei.filterMap fun produced_nucleus =>
        if produced_nucleus.pdg = type_nucleus.pdg ∨
            produced_nucleus.charge ≠ type_nucleus.charge ∨
            produced_nucleus.baryon_number ≠ type_nucleus.baryon_number then
          none
        else
          let tmp := sqrts - type_a.min_mass_kinematic -
            type_b.min_mass_kinematic
          let matrix_element := 591 / 2 +
            2862 / 1000 / (283735 / 100000000 + (sqrts - 2181 / 1000) ^ 2) +
            672 / 10000 / tmp ^ 2 - 661753 / 100000 / tmp
          let spin_factor :=
            ((produced_nucleus.spin : ℚ) + 1) * ((type_pi.spin : ℚ) + 1)
          let xsection0 := matrix_element * spin_factor /
            (s * cm_momentum ctx cs)
          let xsection :=
            if produced_nucleus.is_stable then
              xsection0 * pCM_from_s ctx.rsqrt s type_pi.mass
                produced_nucleus.mass
            else
              xsection0 *
                ctx.integralPiR produced_nucleus.iso_multiplet sqrts
          some ⟨[type_pi, produced_nucleus], xsection, ProcessType.TwoToTwo⟩
    else []

/-- Pion-deuteron 2 to 2 channels, the checked nucleon-nucleon loop
followed by the unchecked pion-d-prime loop; crosssections.cc
lines 1389-1500.  The included_2to2 parameter is unnamed and unused in
the source. -/
def dpi_xx (ctx : Ctx) (cs : cross_sections)
    (_included_2to2 : ReactionsBitSet) : CollisionBranchList :=
  dpi_xx_part1 ctx cs ++ dpi_xx_part2 ctx cs

/-- Nucleon-deuteron 2 to 2 channels; crosssections.cc lines 1502-1558.
The included_2to2 parameter is unnamed and unused in the source, and the
branch is pushed without a really_small check. -/
def dn_xx (ctx : Ctx) (cs : cross_sections)
    (_included_2to2 : ReactionsBitSet) : CollisionBranchList :=
  let type_a := cs.t1
  let type_b := cs.t2
  let type_N := if type_a.is_nucleon then type_a else type_b
  let type_nucleus := if type_a.is_nucleus then type_a else type_b
  let s := cs.sqrt_s * cs.sqrt_s
  let sqrts := cs.sqrt_s
  ctx.listLightNuclei.filterMap fun produced_nucleus =>
    if produced_nucleus.pdg = type_nucleus.pdg ∨
        produced_nucleus.charge ≠ type_nucleus.charge ∨
        produced_nucleus.baryon_number ≠ type_nucleus.baryon_number then
      none
    else
      let matrix_element :=
        if (type_N.baryon_number < 0) = (type_nucleus.baryon_number < 0) then
          let tmp := sqrts - type_N.min_mass_kinematic -
            type_nucleus.min_mass_kinematic
          790474 / 10000 / ctx.rpow tmp (7897 / 10000) + 654596 / 1000 * tmp
        else 6814 / 10
      let spin_factor :=
        ((produced_nucleus.spin : ℚ) + 1) * ((type_N.spin : ℚ) + 1)
      let xsection0 := matrix_element * spin_factor / (s * cm_momentum ctx cs)
      let xsection :=
        if produced_nucleus.is_stable then
          xsection0 * pCM_from_s ctx.rsqrt s type_N.mass produced_nucleus.mass
        else
          xsection0 * ctx.integralNR produced_nucleus.iso_multiplet sqrts
      some ⟨[type_N, produced_nucleus], xsection, ProcessType.TwoToTwo⟩

/-- 2 to 2 dispatch by pair class; crosssections.cc lines 505-552. -/
def two_to_two (ctx : Ctx) (cs : cross_sections)
    (included_2to2 : ReactionsBitSet) : CollisionBranchList :=
  let type_a := cs.t1
  let type_b := cs.t2
  let pdg_a := type_a.pdg
  let pdg_b := type_b.pdg
  if type_a.is_baryon && type_b.is_baryon then
    if is_nucleon_pdg pdg_a && is_nucleon_pdg pdg_b &&
        decide (antiparticle_sign_pdg pdg_a = antiparticle_sign_pdg pdg_b)
      then nn_xx ctx cs included_2to2
    else bb_xx_except_nn ctx cs included_2to2
  else if (type_a.is_baryon && type_b.is_meson) ||
      (type_a.is_meson && type_b.is_baryon) then
    if (is_nucleon_pdg pdg_a && is_kaon_pdg pdg_b) ||
        (is_nucleon_pdg pdg_b && is_kaon_pdg pdg_a) then
      nk_xx ctx cs included_2to2
    else if (type_a.is_hyperon && is_pion_pdg pdg_b) ||
        (type_b.is_hyperon && is_pion_pdg pdg_a) then
      ypi_xx ctx cs included_2to2
    else if (is_Delta_pdg pdg_a && is_kaon_pdg pdg_b) ||
        (is_Delta_pdg pdg_b && is_kaon_pdg pdg_a) then
      deltak_xx ctx cs included_2to2
    else []
  else if type_a.is_nucleus || type_b.is_nucleus then
    if (type_a.is_nucleon && type_b.is_nucleus) ||
        (type_b.is_nucleon && type_a.is_nucleus) then
      dn_xx ctx cs included_2to2
    else if ((type_a.is_deuteron || type_a.is_dprime) &&
          is_pion_pdg pdg_b) ||
        ((type_b.is_deuteron || type_b.is_dprime) && is_pion_pdg pdg_a) then
      dpi_xx ctx cs included_2to2
    else []
  else []

/-- High-energy total cross-section selection; crosssections.cc
lines 1678-1710. -/
def high_energy (ctx : Ctx) (cs : cross_sections) : ℚ :=
  let pdg_a := cs.t1.pdg
  let pdg_b := cs.t2.pdg
  let s := cs.sqrt_s * cs.sqrt_s
  if cs.t1.is_baryon && cs.t2.is_baryon then
    if pdg_a = pdg_b then ctx.ppHighEnergy s
    else if pdg_a = -pdg_b then ctx.ppbarHighEnergy s
    else if antiparticle_sign_pdg pdg_a * antiparticle_sign_pdg pdg_b = 1
      then ctx.npHighEnergy s
    else ctx.npbarHighEnergy s
  else if (pdg_a = 211 ∧ pdg_b = 2212) ∨ (pdg_b = 211 ∧ pdg_a = 2212) ∨
      (pdg_a = -211 ∧ pdg_b = 2112) ∨ (pdg_b = -211 ∧ pdg_a = 2112) then
    ctx.pipluspHighEnergy s
  else if (pdg_a = -211 ∧ pdg_b = 2212) ∨ (pdg_b = -211 ∧ pdg_a = 2212) ∨
      (pdg_a = 211 ∧ pdg_b = 2112) ∨ (pdg_b = 211 ∧ pdg_a = 2112) then
    ctx.piminuspHighEnergy s
  else 0

/-- Hard string cross-section selection; crosssections.cc
lines 1712-1736. -/
def string_hard_cross_section (ctx : Ctx) (cs : cross_sections) : ℚ :=
  let s := cs.sqrt_s * cs.sqrt_s
  if cs.t1.is_baryon && cs.t2.is_baryon then ctx.nnStringHard s
  else if cs.t1.is_baryon || cs.t2.is_baryon then ctx.npiStringHard s
  else ctx.pipiStringHard s

/-- PDG id handed to the string provider: (anti-)baryons map to
(anti-)protons and mesons to a positive pion; crosssections.cc
lines 1574-1585.  De-excitation does not change the baryon number, so
the mapping depends only on it. -/
def string_pdgid (t : ParticleType) : Int :=
  if t.baryon_number = 1 then 2212
  else if t.baryon_number = -1 then -2212
  else 211

/-- The string budget arithmetic of crosssections.cc lines 1606-1614:
from the total string cross section and the three diffractive components
of the provider, compute the rescaled AX, XB, DD and the non-diffractive
total. -/
def string_budget (sig_string_all xsAX xsXB xsDD : ℚ) : ℚ × ℚ × ℚ × ℚ :=
  let single_diffr := xsAX + xsXB
  let diffractive := single_diffr + xsDD
  let nondiffractive_all := max 0 (sig_string_all - diffractive)
  let diffractive2 := sig_string_all - nondiffractive_all
  let double_diffr := max 0 (diffractive2 - single_diffr)
  let a := (diffractive2 - double_diffr) / single_diffr
  (xsAX * a, xsXB * a, double_diffr, nondiffractive_all)

/-- String excitation channels; crosssections.cc lines 1560-1676.  The
uniform draw of the soft-subprocess selection is the parameter r. -/
def string_excitation (ctx : Ctx) (cs : cross_sections)
    (has_string_process : Bool) (r : ℚ) :
    Except String CollisionBranchList :=
  match elastic_parametrization ctx cs with
  | Except.error e => Except.error e
  | Except.ok elpar =>
    let sig_string_all := max 0 (high_energy ctx cs - elpar)
    if 0 < sig_string_all then
      if !has_string_process then
        Except.error "string_process should be initialized."
      else
        let (xsAX, xsXB, xsDD) := ctx.xsDiffractive (string_pdgid cs.t1)
          (string_pdgid cs.t2) cs.sqrt_s
        let (single_diffr_AX, single_diffr_XB, double_diffr,
          nondiffractive_all) := string_budget sig_string_all xsAX xsXB xsDD
        let hard_xsec := string_hard_cross_section ctx cs
        let nondiffractive_soft :=
          nondiffractive_all * ctx.rexp (-hard_xsec / nondiffractive_all)
        let nondiffractive_hard := nondiffractive_all - nondiffractive_soft
        let sig_string_soft := sig_string_all - nondiffractive_hard
        let c1 := single_diffr_AX
        let c2 := c1 + single_diffr_XB
        let c3 := c2 + double_diffr
        let c4 := c3 + nondiffractive_soft
        let r_xsec := c4 * r
        if (0 ≤ r_xsec ∧ r_xsec < c1) ∨ (c1 ≤ r_xsec ∧ r_xsec < c2) ∨
            (c2 ≤ r_xsec ∧ r_xsec < c3) ∨ (c3 ≤ r_xsec ∧ r_xsec < c4) then
          Except.ok
            ((if 0 < sig_string_soft then
                [⟨[], sig_string_soft, ProcessType.StringSoft⟩] else []) ++
             (if 0 < nondiffractive_hard then
                [⟨[], nondiffractive_hard, ProcessType.StringHard⟩] else []))
        else Except.error "soft string subprocess is not specified."
    else Except.ok []

/-- The NNbar annihilation branch: parametrized total minus the sum of
the channels already present, with products h1(1170) and rho0;
crosssections.cc lines 1738-1749. -/
def NNbar_annihilation (ctx : Ctx) (cs : cross_sections)
    (current_xs : ℚ) : CollisionBranch :=
  let s := cs.sqrt_s * cs.sqrt_s
  let nnbar_xsec := max 0 (ctx.ppbarTotal s - current_xs)
  ⟨[ctx.find 10223, ctx.find 113], nnbar_xsec, ProcessType.TwoToTwo⟩

/-- The NNbar creation channels from rho0 h1(1170), via the RR detailed
balance factor; crosssections.cc lines 1751-1778. -/
def NNbar_creation (ctx : Ctx) (cs : cross_sections) : CollisionBranchList :=
  let s := cs.sqrt_s * cs.sqrt_s
  let pcm := cm_momentum ctx cs
  let type_N := ctx.find 2212
  let type_Nbar := ctx.find (-2212)
  if cs.sqrt_s - 2 * type_N.mass < 0 then []
  else
    let xsection :=
      detailed_balance_factor_RR ctx cs.sqrt_s pcm cs.t1 cs.t2 type_N
          type_Nbar *
        max 0 (ctx.ppbarTotal s - ctx.ppbarElastic s)
    [⟨[type_N, type_Nbar], xsection, ProcessType.TwoToTwo⟩,
     ⟨[ctx.find 2112, ctx.find (-2112)], xsection, ProcessType.TwoToTwo⟩]

/-- Whether the scattering goes through string fragmentation;
crosssections.cc lines 2003-2050.  The uniform draw of the mixed window
is the parameter r. -/
def decide_string (cs : cross_sections)
    (strings_switch both_are_nucleons : Bool) (r : ℚ) : Bool :=
  let t1 := cs.t1
  let t2 := cs.t2
  let mix : Option (ℚ × ℚ) :=
    if both_are_nucleons then some (9 / 2, 1 / 2)
    else if (t1.is_pion && t2.is_nucleon) || (t1.is_nucleon && t2.is_pion)
      then some (27 / 10, 2 / 5)
    else none
  match mix with
  | Option.none => false
  | Option.some (e0, w) =>
    if !strings_switch then false
    else if e0 + w < cs.sqrt_s then true
    else if e0 - w < cs.sqrt_s then
      decide (r < (cs.sqrt_s - e0 + w) / w / 2)
    else false

/-- The NNbar-closure tail of generate_collision_list, crosssections.cc
lines 174-184: when the treatment is Resonances, the annihilation branch
is appended (after every other channel, from the running sum) for a
nucleon meeting its own antiparticle, and the creation channels for a
(rho0, h1(1170)) pair in either order. -/
def nnbar_append (ctx : Ctx) (cs : cross_sections)
    (nnbar_treatment : NNbarTreatment) (pl0 : CollisionBranchList) :
    CollisionBranchList :=
  let t1 := cs.t1
  let t2 := cs.t2
  if nnbar_treatment = NNbarTreatment.Resonances then
    let pl1 :=
      if t1.is_nucleon && decide (t2.pdg = -t1.pdg) then
        pl0 ++ [NNbar_annihilation ctx cs (sum_xs_of pl0)]
      else pl0
    if (t1.pdg = 113 ∧ t2.pdg = 10223) ∨
        (t1.pdg = 10223 ∧ t2.pdg = 113) then
      pl1 ++ NNbar_creation ctx cs
    else pl1
  else pl0

/-- The collision-list facade; crosssections.cc lines 138-186.  The
string-process pointer is modelled by has_string_process, and the two
possible uniform draws (regime mixing, soft-subprocess selection) are
the parameters r_string and r_soft. -/
def generate_collision_list (ctx : Ctx) (cs : cross_sections)
    (elastic_parameter : ℚ) (two_to_one_switch : Bool)
    (included_2to2 : ReactionsBitSet) (low_snn_cut : ℚ)
    (strings_switch : Bool) (nnbar_treatment : NNbarTreatment)
    (has_string_process : Bool) (r_string r_soft : ℚ) :
    Except String CollisionBranchList :=
  let t1 := cs.t1
  let t2 := cs.t2
  let both_are_nucleons := t1.is_nucleon && t2.is_nucleon
  let is_pythia := decide_string cs strings_switch both_are_nucleons r_string
  let reject_by_nucleon_elastic_cutoff := both_are_nucleons &&
    decide (t1.antiparticle_sign = t2.antiparticle_sign) &&
    decide (cs.sqrt_s < low_snn_cut)
  let incl_elastic := included_2to2.elastic
  let elPart : Except String CollisionBranchList :=
    if incl_elastic && !reject_by_nucleon_elastic_cutoff then
      match elastic ctx cs elastic_parameter with
      | Except.ok br => Except.ok [br]
      | Except.error e => Except.error e
    else Except.ok []
  let midPart : Except String CollisionBranchList :=
    if is_pythia then string_excitation ctx cs has_string_process r_soft
    else
      Except.ok
        ((if two_to_one_switch then two_to_one ctx cs else []) ++
         (if included_2to2.any then two_to_two ctx cs included_2to2 else []))
  match elPart, midPart with
  | Except.ok l1, Except.ok l2 =>
    Except.ok (nnbar_append ctx cs nnbar_treatment (l1 ++ l2))
  | Except.error e, _ => Except.error e
  | Except.ok _, Except.error e => Except.error e

/-- msqr of the matrix element table: 2 (m_a^2 + m_b^2). -/
def msqr_of (a b : ParticleType) : ℚ :=
  2 * (a.mass * a.mass + b.mass * b.mass)

/-- Energy cutoff of the matrix element:
m_a + m_b + 3 (Gamma_a + Gamma_b) + 3. -/
def uplmt_of (a b : ParticleType) : ℚ :=
  a.mass + b.mass + 3 * (a.width_at_pole + b.width_at_pole) + 3

/-- The needle occurs as a contiguous substring of the haystack. -/
def strContains (hay needle : String) : Prop :=
  List.IsInfix needle.data hay.data

/-- The error message mentions both species names, both 2J values, the
cross-section value, and s. -/
def mentions_kinematics (msg : String) (a b : ParticleType)
    (sig s : ℚ) : Prop :=
  strContains msg a.name ∧ strContains msg b.name ∧
    strContains msg (toString a.spin) ∧ strContains msg (toString b.spin) ∧
    strContains msg (toString sig) ∧ strContains msg (toString s)

/-! Concrete example particles and environments, used to evaluate the
theorems on closed inputs. -/

/-- A generic stable meson outside every special class. -/
def mesonX : ParticleType :=
  { pdg := 999, name := "X", mass := 1, width_at_pole := 0, spin := 0,
    charge := 0, baryon_number := 0, is_stable := true, is_baryon := false,
    is_meson := true, is_hyperon := false, is_Nstar := false,
    is_Nstar1535 := false, is_Deltastar := false, is_nucleus := false,
    is_deuteron := false, is_dprime := false, min_mass_kinematic := 1,
    min_mass_spectral := 1, iso_multiplet := 0 }

def protonT : ParticleType :=
  { mesonX with
    pdg := 2212
    name := "p"
    mass := 938 / 1000
    spin := 1
    charge := 1
    baryon_number := 1
    is_baryon := true
    is_meson := false }

def antiprotonT : ParticleType :=
  { protonT with
    pdg := -2212
    name := "pbar"
    charge := -1
    baryon_number := -1 }

def neutronT : ParticleType :=
  { protonT with
    pdg := 2112
    name := "n"
    charge := 0 }

def antineutronT : ParticleType :=
  { neutronT with
    pdg := -2112
    name := "nbar"
    baryon_number := -1 }

def rhoT : ParticleType :=
  { mesonX with
    pdg := 113
    name := "rho0"
    spin := 2
    is_stable := false
    iso_multiplet := 1 }

def h1T : ParticleType :=
  { mesonX with
    pdg := 10223
    name := "h1"
    spin := 2
    is_stable := false
    iso_multiplet := 2 }

def deltaT : ParticleType :=
  { protonT with
    pdg := 2224
    name := "D"
    mass := 1232 / 1000
    width_at_pole := 117 / 1000
    spin := 3
    charge := 2
    is_stable := false }

/-- Example context: small registry, unit parametrizations and unit
library functions. -/
def ctx0 : Ctx :=
  { find := fun c =>
      if c = 2212 then protonT else if c = -2212 then antiprotonT
      else if c = 2112 then neutronT else if c = -2112 then antineutronT
      else if c = 113 then rhoT else if c = 10223 then h1T else mesonX,
    tryFind := fun _ => Option.none,
    listAll := [], listNucleons := [protonT, neutronT],
    listAntiNucleons := [antiprotonT, antineutronT],
    listDeltas := [], listAntiDeltas := [], listBaryonResonances := [],
    listLightNuclei := [],
    spectralFunction := fun _ _ => 1, partialInWidth := fun _ _ _ _ => 1,
    integralNR := fun _ _ => 1, integralRR := fun _ _ _ => 1,
    integralRK := fun _ _ => 1, integralPiR := fun _ _ => 1,
    iTotRange := fun _ _ => [], cgSqr2to2 := fun _ _ _ _ _ => 1,
    kplusnRatiosGet := fun _ _ _ _ => 1,
    rsqrt := fun _ => 1, rpow := fun _ _ => 1, rexp := fun _ => 1,
    mathPi := 3,
    ppElastic := fun _ => 1, npElastic := fun _ => 1,
    ppbarElastic := fun _ => 1,
    pipluspElastic := fun _ => 1, piminuspElastic := fun _ => 1,
    kpluspElasticBg := fun _ => 1, kplusnElasticBg := fun _ => 1,
    kminuspElasticBg := fun _ => 1, kminusnElasticBg := fun _ => 1,
    k0pElasticBg := fun _ => 1, k0nElasticBg := fun _ => 1,
    kbar0pElasticBg := fun _ => 1, kbar0nElasticBg := fun _ => 1,
    kpluspInelasticBg := fun _ => 1, kplusnInelasticBg := fun _ => 1,
    kminuspPiminussigmaplus := fun _ => 1,
    kminuspPiplussigmaminus := fun _ => 1,
    kminuspPi0sigma0 := fun _ => 1, kminuspPi0lambda := fun _ => 1,
    kminuspKbar0n := fun _ => 1, kplusnK0p := fun _ => 1,
    kminusnPiminussigma0 := fun _ => 1, kminusnPi0sigmaminus := fun _ => 1,
    kminusnPiminuslambda := fun _ => 1,
    ppHighEnergy := fun _ => 1, ppbarHighEnergy := fun _ => 1,
    npHighEnergy := fun _ => 1, npbarHighEnergy := fun _ => 1,
    pipluspHighEnergy := fun _ => 1, piminuspHighEnergy := fun _ => 1,
    nnStringHard := fun _ => 1, npiStringHard := fun _ => 1,
    pipiStringHard := fun _ => 1,
    ppbarTotal := fun _ => 1,
    xsDiffractive := fun _ _ _ => (1, 1, 1) }

/-- Example context with a larger high-energy total, so that the string
budget is positive. -/
def ctx4 : Ctx :=
  { ctx0 with
    ppHighEnergy := fun _ => 10 }

/-- Only the Elastic bit set. -/
def bits_el : ReactionsBitSet := ⟨true, false, false, false, false, false⟩

/-- No bits set. -/
def bits_none : ReactionsBitSet :=
  ⟨false, false, false, false, false, false⟩

/-- Two generic mesons at sqrt(s) = 2. -/
def cs_mm : cross_sections := ⟨mesonX, mesonX, 1, 1, 2⟩

/-- Proton and antiproton at sqrt(s) = 3. -/
def cs_ppbar : cross_sections :=
  ⟨protonT, antiprotonT, 938 / 1000, 938 / 1000, 3⟩

/-- Two protons at sqrt(s) = 3. -/
def cs4 : cross_sections := ⟨protonT, protonT, 938 / 1000, 938 / 1000, 3⟩

/-- rho0 and h1(1170) at sqrt(s) = 3. -/
def cs_rh : cross_sections := ⟨rhoT, h1T, 1, 1, 3⟩

/-! Lemmas and theorems. -/

/-- C7: detailed_balance_factor_stable(s, A, B, C, D) equals the product
of the spin factor (2J_C+1)(2J_D+1)/((2J_A+1)(2J_B+1)), the symmetry
factor (1+delta(A,B))/(1+delta(C,D)), and the momentum factor
pCM_sqr(s,m_C,m_D)/pCM_sqr(s,m_A,m_B), for all particle types and s. -/
theorem detailed_balance_factor_stable_spec (s : ℚ) (a b c d : ParticleType) :
    detailed_balance_factor_stable s a b c d =
      detailedBalanceStableSpec s a b c d := by
  unfold detailed_balance_factor_stable detailedBalanceStableSpec gDegeneracy
    deltaInd
  have hg : ∀ x : ParticleType, 2 * ((x.spin : ℚ) / 2) + 1 = (x.spin : ℚ) + 1 := by
    intro x; ring
  rw [hg, hg, hg, hg]

/-- C9: the Breit-Wigner profile satisfies
BW(s, M, Gamma) = (2 s Gamma) / (pi ((s - M^2)^2 + s Gamma^2)) with
s the squared invariant mass srts^2. -/
theorem breit_wigner_formula (pi srts m w : ℚ) :
    breit_wigner pi srts m w =
      2 * (srts * srts) * w /
        (pi * (((srts * srts) - m ^ 2) ^ 2 + (srts * srts) * w ^ 2)) := by
  show 2 * (srts * srts) * w /
      (pi * ((srts * srts - m * m) * (srts * srts - m * m) +
        srts * srts * w * w)) = _
  rw [show pi * ((srts * srts - m * m) * (srts * srts - m * m) +
        srts * srts * w * w) =
      pi * (((srts * srts) - m ^ 2) ^ 2 + (srts * srts) * w ^ 2) from by ring]

lemma nnrme_unfold (ctx : Ctx) (sqrts : ℚ) (a b : ParticleType) (twoI : ℤ) :
    nn_to_resonance_matrix_element ctx sqrts a b twoI =
      if uplmt_of a b < sqrts then 0
      else if guardND a b then
        68 / ctx.rpow (sqrts - 1104 / 1000) (1951 / 1000)
      else if guardNNstar a b then
        if twoI = 2 then 7 / msqr_of a b
        else if twoI = 0 then
          if a.is_Nstar1535 || b.is_Nstar1535 then
            13 / 2 * (14 / msqr_of a b)
          else 14 / msqr_of a b
        else 0
      else if guardNDstar a b then 15 / msqr_of a b
      else if guardDD a b then
        if twoI = 2 then 45 / msqr_of a b
        else if twoI = 0 then 120 / msqr_of a b
        else 0
      else if guardNstarD a b then 7 / msqr_of a b
      else if guardDstarD a b then
        if twoI = 2 then 15 / msqr_of a b
        else if twoI = 0 then 25 / msqr_of a b
        else 0
      else if guardDPi a b then
        55 / 1000 / ((sqrts - 2145 / 1000) ^ 2 + (65 / 1000) ^ 2) *
          (1 - ctx.rexp (-(sqrts - 2) * 20))
      else 0 := rfl

/-- C5: the matrix element returns 0 above the cutoff, the Dmitriev fit
for N Delta with equal antiparticle signs at any isospin, the tabled
constants over msqr for the other listed final states (with the 6.5
factor for N Nstar(1535) at 2I = 0 and the deuteron-pion fit), and 0 for
every final state not listed. -/
theorem nn_to_resonance_matrix_element_cases (ctx : Ctx) (sqrts : ℚ)
    (a b : ParticleType) (twoI : ℤ) :
    (uplmt_of a b < sqrts →
      nn_to_resonance_matrix_element ctx sqrts a b twoI = 0) ∧
    (sqrts ≤ uplmt_of a b → guardND a b = true →
      nn_to_resonance_matrix_element ctx sqrts a b twoI =
        68 / ctx.rpow (sqrts - 1104 / 1000) (1951 / 1000)) ∧
    (sqrts ≤ uplmt_of a b → guardND a b = false → guardNNstar a b = true →
      (twoI = 2 →
        nn_to_resonance_matrix_element ctx sqrts a b twoI =
          7 / msqr_of a b) ∧
      (twoI = 0 → (a.is_Nstar1535 || b.is_Nstar1535) = true →
        nn_to_resonance_matrix_element ctx sqrts a b twoI =
          13 / 2 * (14 / msqr_of a b)) ∧
      (twoI = 0 → (a.is_Nstar1535 || b.is_Nstar1535) = false →
        nn_to_resonance_matrix_element ctx sqrts a b twoI =
          14 / msqr_of a b) ∧
      (twoI ≠ 2 → twoI ≠ 0 →
        nn_to_resonance_matrix_element ctx sqrts a b twoI = 0)) ∧
    (sqrts ≤ uplmt_of a b → guardND a b = false → guardNNstar a b = false →
      guardNDstar a b = true →
      nn_to_resonance_matrix_element ctx sqrts a b twoI =
        15 / msqr_of a b) ∧
    (sqrts ≤ uplmt_of a b → guardND a b = false → guardNNstar a b = false →
      guardNDstar a b = false → guardDD a b = true →
      (twoI = 2 →
        nn_to_resonance_matrix_element ctx sqrts a b twoI =
          45 / msqr_of a b) ∧
      (twoI = 0 →
        nn_to_resonance_matrix_element ctx sqrts a b twoI =
          120 / msqr_of a b) ∧
      (twoI ≠ 2 → twoI ≠ 0 →
        nn_to_resonance_matrix_element ctx sqrts a b twoI = 0)) ∧
    (sqrts ≤ uplmt_of a b → guardND a b = false → guardNNstar a b = false →
      guardNDstar a b = false → guardDD a b = false →
      guardNstarD a b = true →
      nn_to_resonance_matrix_element ctx sqrts a b twoI = 7 / msqr_of a b) ∧
    (sqrts ≤ uplmt_of a b → guardND a b = false → guardNNstar a b = false →
      guardNDstar a b = false → guardDD a b = false →
      guardNstarD a b = false → guardDstarD a b = true →
      (twoI = 2 →
        nn_to_resonance_matrix_element ctx sqrts a b twoI =
          15 / msqr_of a b) ∧
      (twoI = 0 →
        nn_to_resonance_matrix_element ctx sqrts a b twoI =
          25 / msqr_of a b) ∧
      (twoI ≠ 2 → twoI ≠ 0 →
        nn_to_resonance_matrix_element ctx sqrts a b twoI = 0)) ∧
    (sqrts ≤ uplmt_of a b → guardND a b = false → guardNNstar a b = false →
      guardNDstar a b = false → guardDD a b = false →
      guardNstarD a b = false → guardDstarD a b = false →
      guardDPi a b = true →
      nn_to_resonance_matrix_element ctx sqrts a b twoI =
        55 / 1000 / ((sqrts - 2145 / 1000) ^ 2 + (65 / 1000) ^ 2) *
          (1 - ctx.rexp (-(sqrts - 2) * 20))) ∧
    (guardND a b = false → guardNNstar a b = false →
      guardNDstar a b = false → guardDD a b = false →
      guardNstarD a b = false → guardDstarD a b = false →
      guardDPi a b = false →
      nn_to_resonance_matrix_element ctx sqrts a b twoI = 0) := by
  rw [nnrme_unfold]
  refine ⟨?_, ?_, ?_, ?_, ?_, ?_, ?_, ?_, ?_⟩
  · intro h; rw [if_pos h]
  · intro hle hg
    rw [if_neg (not_lt.mpr hle), if_pos hg]
  · intro hle h1 h2
    rw [if_neg (not_lt.mpr hle), if_neg (by simp [h1]), if_pos h2]
    refine ⟨fun hI => by rw [if_pos hI], fun hI h15 => ?_,
      fun hI h15 => ?_, fun hI2 hI0 => ?_⟩
    · rw [if_neg (by simp [hI]), if_pos hI, if_pos h15]
    · rw [if_neg (by simp [hI]), if_pos hI, if_neg (by simp [h15])]
    · rw [if_neg hI2, if_neg hI0]
  · intro hle h1 h2 h3
    rw [if_neg (not_lt.mpr hle), if_neg (by simp [h1]),
      if_neg (by simp [h2]), if_pos h3]
  · intro hle h1 h2 h3 h4
    rw [if_neg (not_lt.mpr hle), if_neg (by simp [h1]),
      if_neg (by simp [h2]), if_neg (by simp [h3]), if_pos h4]
    refine ⟨fun hI => by rw [if_pos hI], fun hI => ?_, fun hI2 hI0 => ?_⟩
    · rw [if_neg (by simp [hI]), if_pos hI]
    · rw [if_neg hI2, if_neg hI0]
  · intro hle h1 h2 h3 h4 h5
    rw [if_neg (not_lt.mpr hle), if_neg (by simp [h1]),
      if_neg (by simp [h2]), if_neg (by simp [h3]), if_neg (by simp [h4]),
      if_pos h5]
  · intro hle h1 h2 h3 h4 h5 h6
    rw [if_neg (not_lt.mpr hle), if_neg (by simp [h1]),
      if_neg (by simp [h2]), if_neg (by simp [h3]), if_neg (by simp [h4]),
      if_neg (by simp [h5]), if_pos h6]
    refine ⟨fun hI => by rw [if_pos hI], fun hI => ?_, fun hI2 hI0 => ?_⟩
    · rw [if_neg (by simp [hI]), if_pos hI]
    · rw [if_neg hI2, if_neg hI0]
  · intro hle h1 h2 h3 h4 h5 h6 h7
    rw [if_neg (not_lt.mpr hle), if_neg (by simp [h1]),
      if_neg (by simp [h2]), if_neg (by simp [h3]), if_neg (by simp [h4]),
      if_neg (by simp [h5]), if_neg (by simp [h6]), if_pos h7]
  · intro h1 h2 h3 h4 h5 h6 h7
    by_cases hcut : uplmt_of a b < sqrts
    · rw [if_pos hcut]
    · rw [if_neg hcut, if_neg (by simp [h1]), if_neg (by simp [h2]),
        if_neg (by simp [h3]), if_neg (by simp [h4]), if_neg (by simp [h5]),
        if_neg (by simp [h6]), if_neg (by simp [h7])]

/-- C8: dpi_xx and dn_xx ignore the included_2to2 bitset entirely: two
runs with different bitsets and otherwise identical inputs return
identical branch lists. -/
theorem dpi_dn_bitset_independent (ctx : Ctx) (cs : cross_sections)
    (bits1 bits2 : ReactionsBitSet) :
    dpi_xx ctx cs bits1 = dpi_xx ctx cs bits2 ∧
      dn_xx ctx cs bits1 = dn_xx ctx cs bits2 :=
  ⟨rfl, rfl⟩

/-- C10: NNbar_creation returns no branch below twice the proton pole
mass, and otherwise exactly the (p, pbar) and (n, nbar) branches with
the identical detailed-balance weight, even when that weight is zero. -/
theorem NNbar_creation_cases (ctx : Ctx) (cs : cross_sections) :
    (cs.sqrt_s < 2 * (ctx.find 2212).mass → NNbar_creation ctx cs = []) ∧
    (2 * (ctx.find 2212).mass ≤ cs.sqrt_s →
      NNbar_creation ctx cs =
        [⟨[ctx.find 2212, ctx.find (-2212)],
            detailed_balance_factor_RR ctx cs.sqrt_s (cm_momentum ctx cs)
                cs.t1 cs.t2 (ctx.find 2212) (ctx.find (-2212)) *
              max 0 (ctx.ppbarTotal (cs.sqrt_s * cs.sqrt_s) -
                ctx.ppbarElastic (cs.sqrt_s * cs.sqrt_s)),
            ProcessType.TwoToTwo⟩,
         ⟨[ctx.find 2112, ctx.find (-2112)],
            detailed_balance_factor_RR ctx cs.sqrt_s (cm_momentum ctx cs)
                cs.t1 cs.t2 (ctx.find 2212) (ctx.find (-2212)) *
              max 0 (ctx.ppbarTotal (cs.sqrt_s * cs.sqrt_s) -
                ctx.ppbarElastic (cs.sqrt_s * cs.sqrt_s)),
            ProcessType.TwoToTwo⟩]) := by
  constructor
  · intro h
    unfold NNbar_creation
    rw [if_pos (by rw [sub_neg]; exact h)]
  · intro h
    unfold NNbar_creation
    rw [if_neg (by rw [sub_neg]; exact not_lt.mpr h)]

lemma string_budget_sum (S AX XB DD : ℚ) (hS : 0 ≤ S) (hDD : 0 ≤ DD) :
    (string_budget S AX XB DD).1 + (string_budget S AX XB DD).2.1 +
      (string_budget S AX XB DD).2.2.1 +
      (string_budget S AX XB DD).2.2.2 = S := by
  unfold string_budget
  dsimp only
  by_cases hsd : AX + XB = 0
  · rw [hsd]
    simp only [div_zero, mul_zero, zero_add, sub_zero]
    rcases le_total (S - DD) 0 with hn | hn
    · rw [max_eq_left hn, sub_zero, max_eq_right hS, add_zero]
    · rw [max_eq_right hn]
      have hDD2 : S - (S - DD) = DD := by ring
      rw [hDD2, max_eq_right hDD]
      linarith
  · set nall := max 0 (S - (AX + XB + DD)) with hnall
    set dd1 := max 0 (S - nall - (AX + XB)) with hdd1
    have hmul : AX * ((S - nall - dd1) / (AX + XB)) +
        XB * ((S - nall - dd1) / (AX + XB)) = S - nall - dd1 := by
      rw [← add_mul]
      field_simp
    linarith

/-- C4: after the budget arithmetic of string_excitation, the rescaled
AX + XB + DD plus the non-diffractive total equals the string budget
S = max(0, sigma_high_energy - sigma_elastic); the emitted StringSoft
branch carries S - nondiff_hard and the StringHard branch carries
nondiff_hard, each omitted when its weight is zero (non-positive). -/
theorem string_excitation_budget (ctx : Ctx) (cs : cross_sections)
    (r AX XB DD elpar S nhard : ℚ)
    (hAX : 0 ≤ AX) (hXB : 0 ≤ XB) (hDD : 0 ≤ DD)
    (hxs : ctx.xsDiffractive (string_pdgid cs.t1) (string_pdgid cs.t2)
      cs.sqrt_s = (AX, XB, DD))
    (hel : elastic_parametrization ctx cs = Except.ok elpar)
    (hS : S = max 0 (high_energy ctx cs - elpar))
    (hH : nhard = (string_budget S AX XB DD).2.2.2 -
      (string_budget S AX XB DD).2.2.2 *
        ctx.rexp (-string_hard_cross_section ctx cs /
          (string_budget S AX XB DD).2.2.2)) :
    (string_budget S AX XB DD).1 + (string_budget S AX XB DD).2.1 +
        (string_budget S AX XB DD).2.2.1 +
        (string_budget S AX XB DD).2.2.2 = S ∧
      ∀ cl, string_excitation ctx cs true r = Except.ok cl →
        cl = (if 0 < S - nhard then
            [⟨[], S - nhard, ProcessType.StringSoft⟩] else []) ++
          (if 0 < nhard then
            [⟨[], nhard, ProcessType.StringHard⟩] else []) := by
  have hS0 : 0 ≤ S := hS ▸ le_max_left 0 _
  refine ⟨string_budget_sum S AX XB DD hS0 hDD, ?_⟩
  intro cl hcl
  unfold string_excitation at hcl
  rw [hel] at hcl
  rw [hxs] at hcl
  dsimp only at hcl
  rw [← hS] at hcl
  rw [← hH] at hcl
  by_cases hpos : 0 < S
  · rw [if_pos hpos] at hcl
    rw [if_neg (by simp)] at hcl
    split at hcl
    · exact (Except.ok.inj hcl).symm
    · exact Except.noConfusion hcl
  · rw [if_neg hpos] at hcl
    have hcl0 : cl = [] := (Except.ok.inj hcl).symm
    have hSz : S = 0 := le_antisymm (not_lt.mp hpos) hS0
    have hnall : (string_budget S AX XB DD).2.2.2 = 0 := by
      unfold string_budget
      dsimp only
      rw [hSz, max_eq_left (by linarith)]
    have hhz : nhard = 0 := by rw [hH, hnall]; ring
    rw [hcl0, hhz, hSz]
    norm_num

lemma isInfix_head {α : Type} (m r : List α) : List.IsInfix m (m ++ r) :=
  ⟨[], r, by simp⟩

lemma isInfix_drop {α : Type} (x : List α) {m l : List α}
    (h : List.IsInfix m l) : List.IsInfix m (x ++ l) := by
  obtain ⟨s, t, rfl⟩ := h
  exact ⟨x ++ s, t, by simp⟩

lemma elastic_error_message_mentions (a b : ParticleType) (sig s : ℚ) :
    mentions_kinematics (elastic_error_message a b sig s) a b sig s := by
  have hdata : (elastic_error_message a b sig s).data =
      "problem in CrossSections::elastic: a=".data ++ (a.name.data ++
      (" b=".data ++ (b.name.data ++ (" j_a=".data ++
      ((toString a.spin).data ++ (" j_b=".data ++ ((toString b.spin).data ++
      (" sigma=".data ++ ((toString sig).data ++ (" s=".data ++
      (toString s).data)))))))))) := by
    simp [elastic_error_message, String.data_append, List.append_assoc]
  refine ⟨?_, ?_, ?_, ?_, ?_, ?_⟩ <;> unfold strContains <;> rw [hdata]
  · exact isInfix_drop _ (isInfix_head _ _)
  · exact isInfix_drop _ (isInfix_drop _ (isInfix_drop _
      (isInfix_head _ _)))
  · exact isInfix_drop _ (isInfix_drop _ (isInfix_drop _ (isInfix_drop _
      (isInfix_drop _ (isInfix_head _ _)))))
  · exact isInfix_drop _ (isInfix_drop _ (isInfix_drop _ (isInfix_drop _
      (isInfix_drop _ (isInfix_drop _ (isInfix_drop _
      (isInfix_head _ _)))))))
  · exact isInfix_drop _ (isInfix_drop _ (isInfix_drop _ (isInfix_drop _
      (isInfix_drop _ (isInfix_drop _ (isInfix_drop _ (isInfix_drop _
      (isInfix_drop _ (isInfix_head _ _)))))))))
  · exact isInfix_drop _ (isInfix_drop _ (isInfix_drop _ (isInfix_drop _
      (isInfix_drop _ (isInfix_drop _ (isInfix_drop _ (isInfix_drop _
      (isInfix_drop _ (isInfix_drop _ (isInfix_drop _
      (List.infix_refl _)))))))))))

lemma is_nucleon_pdg_iff (c : Int) :
    is_nucleon_pdg c = true ↔
      (c = 2212 ∨ c = 2112 ∨ c = -2212 ∨ c = -2112) := by
  simp [is_nucleon_pdg, or_assoc]

/-- C6: nn_el returns the parametrization selected by the PDG codes
(pp, ppbar or np elastic) when positive and raises the fatal error with
both names, both 2J values, the value and s exactly when the selected
value is non-positive; the same raise-iff-non-positive rule holds for
the nucleon-pion table of npi_el. -/
theorem elastic_positivity_check (ctx : Ctx) (cs : cross_sections)
    (sel selpi : ℚ)
    (hsel : sel = (if cs.t1.pdg = cs.t2.pdg then
        ctx.ppElastic (cs.sqrt_s * cs.sqrt_s)
      else if cs.t1.pdg = -cs.t2.pdg then
        ctx.ppbarElastic (cs.sqrt_s * cs.sqrt_s)
      else ctx.npElastic (cs.sqrt_s * cs.sqrt_s)))
    (hselpi : selpi = npi_el_sig ctx
      (if is_nucleon_pdg cs.t1.pdg then cs.t1.pdg else cs.t2.pdg)
      (if is_nucleon_pdg cs.t1.pdg then cs.t2.pdg else cs.t1.pdg)
      (cs.sqrt_s * cs.sqrt_s)) :
    ((0 < sel → nn_el ctx cs = Except.ok sel) ∧
     (sel ≤ 0 →
       nn_el ctx cs = Except.error
           (elastic_error_message cs.t1 cs.t2 sel (cs.sqrt_s * cs.sqrt_s)) ∧
         mentions_kinematics
           (elastic_error_message cs.t1 cs.t2 sel (cs.sqrt_s * cs.sqrt_s))
           cs.t1 cs.t2 sel (cs.sqrt_s * cs.sqrt_s))) ∧
    (is_nucleon_pdg
        (if is_nucleon_pdg cs.t1.pdg then cs.t1.pdg else cs.t2.pdg) = true →
      (0 < selpi → npi_el ctx cs = Except.ok selpi) ∧
      (selpi ≤ 0 →
        npi_el ctx cs = Except.error
            (elastic_error_message cs.t1 cs.t2 selpi
              (cs.sqrt_s * cs.sqrt_s)) ∧
          mentions_kinematics
            (elastic_error_message cs.t1 cs.t2 selpi
              (cs.sqrt_s * cs.sqrt_s))
            cs.t1 cs.t2 selpi (cs.sqrt_s * cs.sqrt_s))) := by
  constructor
  · unfold nn_el
    dsimp only
    rw [← hsel]
    refine ⟨fun h => by rw [if_pos h], fun h => ?_⟩
    rw [if_neg (not_lt.mpr h)]
    exact ⟨rfl, elastic_error_message_mentions _ _ _ _⟩
  · intro hnuc
    unfold npi_el
    dsimp only
    rw [if_pos ((is_nucleon_pdg_iff _).mp hnuc)]
    rw [← hselpi]
    refine ⟨fun h => by rw [if_pos h], fun h => ?_⟩
    rw [if_neg (not_lt.mpr h)]
    exact ⟨rfl, elastic_error_message_mentions _ _ _ _⟩

lemma mem_add_channel {l : CollisionBranchList} {f : Unit → ℚ} {s : ℚ}
    {ta tb : ParticleType} {b : CollisionBranch}
    (hb : b ∈ add_channel l f s ta tb) :
    b ∈ l ∨ (b.ptype = ProcessType.TwoToTwo ∧ really_small < b.weight) := by
  unfold add_channel at hb
  dsimp only at hb
  split at hb
  · exact Or.inl hb
  · split at hb
    · rename_i hxs
      rcases List.mem_append.mp hb with h | h
      · exact Or.inl h
      · cases List.mem_singleton.mp h
        exact Or.inr ⟨rfl, hxs⟩
    · exact Or.inl hb

lemma mem_add_channels_aux {s : ℚ} {b : CollisionBranch} :
    ∀ (cands : List ChannelCandidate) (init : CollisionBranchList),
      b ∈ add_channels s init cands →
      b ∈ init ∨
        (b.ptype = ProcessType.TwoToTwo ∧ really_small < b.weight) := by
  intro cands
  induction cands with
  | nil => exact fun init hb => Or.inl hb
  | cons c rest ih =>
    intro init hb
    rcases ih (add_channel init c.get s c.a c.b) hb with h | h
    · exact mem_add_channel h
    · exact Or.inr h

lemma mem_add_channels {s : ℚ} {init : CollisionBranchList}
    {cands : List ChannelCandidate} {b : CollisionBranch}
    (hb : b ∈ add_channels s init cands) :
    b ∈ init ∨
      (b.ptype = ProcessType.TwoToTwo ∧ really_small < b.weight) :=
  mem_add_channels_aux cands init hb

lemma nk_xx_mem {ctx : Ctx} {cs : cross_sections} {bits : ReactionsBitSet}
    {b : CollisionBranch} (hb : b ∈ nk_xx ctx cs bits) :
    b.ptype = ProcessType.TwoToTwo ∧ really_small < b.weight := by
  obtain ⟨cands, hrw⟩ : ∃ cands,
      nk_xx ctx cs bits = add_channels cs.sqrt_s [] cands := ⟨_, rfl⟩
  rw [hrw] at hb
  rcases mem_add_channels hb with h | h
  · exact absurd h (List.not_mem_nil b)
  · exact h

lemma deltak_xx_mem {ctx : Ctx} {cs : cross_sections}
    {bits : ReactionsBitSet} {b : CollisionBranch}
    (hb : b ∈ deltak_xx ctx cs bits) :
    b.ptype = ProcessType.TwoToTwo ∧ really_small < b.weight := by
  obtain ⟨cands, hrw⟩ : ∃ cands, deltak_xx ctx cs bits =
      if !bits.knToKDelta then [] else add_channels cs.sqrt_s [] cands :=
    ⟨_, rfl⟩
  rw [hrw] at hb
  split at hb
  · exact absurd hb (List.not_mem_nil b)
  · rcases mem_add_channels hb with h | h
    · exact absurd h (List.not_mem_nil b)
    · exact h

lemma ypi_xx_mem {ctx : Ctx} {cs : cross_sections} {bits : ReactionsBitSet}
    {b : CollisionBranch} (hb : b ∈ ypi_xx ctx cs bits) :
    b.ptype = ProcessType.TwoToTwo ∧ really_small < b.weight := by
  obtain ⟨cands, hrw⟩ : ∃ cands, ypi_xx ctx cs bits =
      if !bits.strangenessEx then [] else add_channels cs.sqrt_s [] cands :=
    ⟨_, rfl⟩
  rw [hrw] at hb
  split at hb
  · exact absurd hb (List.not_mem_nil b)
  · rcases mem_add_channels hb with h | h
    · exact absurd h (List.not_mem_nil b)
    · exact h

lemma find_nn_xsection_mem {ctx : Ctx} {cs : cross_sections}
    {l1 l2 : List ParticleType} {integ : ParticleType → ParticleType → ℚ}
    {b : CollisionBranch} (hb : b ∈ find_nn_xsection_from_type ctx cs l1 l2
      integ) :
    b.ptype = ProcessType.TwoToTwo ∧ really_small < b.weight := by
  unfold find_nn_xsection_from_type at hb
  obtain ⟨r1, _, hmem⟩ := List.mem_flatMap.mp hb
  obtain ⟨r2, _, hmem2⟩ := List.mem_flatMap.mp hmem
  split at hmem2
  · exact absurd hmem2 (List.not_mem_nil b)
  · obtain ⟨twoI, _, hfx⟩ := List.mem_filterMap.mp hmem2
    dsimp only at hfx
    repeat' split at hfx
    all_goals
      first
      | exact Option.noConfusion hfx
      | (rename_i hcond; cases Option.some.inj hfx; exact ⟨rfl, hcond⟩)

lemma bar_bar_to_nuc_nuc_mem {ctx : Ctx} {cs : cross_sections} {anti : Bool}
    {b : CollisionBranch} (hb : b ∈ bar_bar_to_nuc_nuc ctx cs anti) :
    b.ptype = ProcessType.TwoToTwo ∧ really_small < b.weight := by
  unfold bar_bar_to_nuc_nuc at hb
  obtain ⟨n1, _, hmem⟩ := List.mem_flatMap.mp hb
  obtain ⟨n2, _, hmem2⟩ := List.mem_flatMap.mp hmem
  split at hmem2
  · exact absurd hmem2 (List.not_mem_nil b)
  · obtain ⟨twoI, _, hfx⟩ := List.mem_filterMap.mp hmem2
    dsimp only at hfx
    repeat' split at hfx
    all_goals
      first
      | exact Option.noConfusion hfx
      | (rename_i hcond; cases Option.some.inj hfx; exact ⟨rfl, hcond⟩)

lemma nn_xx_mem {ctx : Ctx} {cs : cross_sections} {bits : ReactionsBitSet}
    {b : CollisionBranch} (hb : b ∈ nn_xx ctx cs bits) :
    b.ptype = ProcessType.TwoToTwo ∧ really_small < b.weight := by
  unfold nn_xx at hb
  dsimp only at hb
  rcases List.mem_append.mp hb with h12 | h3
  · rcases List.mem_append.mp h12 with h1 | h2
    · split at h1
      · exact find_nn_xsection_mem h1
      · exact absurd h1 (List.not_mem_nil b)
    · split at h2
      · exact find_nn_xsection_mem h2
      · exact absurd h2 (List.not_mem_nil b)
  · split at h3
    · exact find_nn_xsection_mem h3
    · exact absurd h3 (List.not_mem_nil b)

lemma bb_xx_except_nn_mem {ctx : Ctx} {cs : cross_sections}
    {bits : ReactionsBitSet} {b : CollisionBranch}
    (hb : b ∈ bb_xx_except_nn ctx cs bits) :
    b.ptype = ProcessType.TwoToTwo ∧ really_small < b.weight := by
  unfold bb_xx_except_nn at hb
  dsimp only at hb
  repeat' split at hb
  all_goals
    first
    | exact absurd hb (List.not_mem_nil b)
    | exact bar_bar_to_nuc_nuc_mem hb

lemma dpi_xx_part1_mem {ctx : Ctx} {cs : cross_sections}
    {b : CollisionBranch} (hb : b ∈ dpi_xx_part1 ctx cs) :
    b.ptype = ProcessType.TwoToTwo ∧ really_small < b.weight := by
  dsimp only [dpi_xx_part1] at hb
  split at hb
  · obtain ⟨n1, _, hmem⟩ := List.mem_flatMap.mp hb
    obtain ⟨n2, _, hmem2⟩ := List.mem_flatMap.mp hmem
    split at hmem2
    · exact absurd hmem2 (List.not_mem_nil b)
    · obtain ⟨twoI, _, hfx⟩ := List.mem_filterMap.mp hmem2
      repeat' split at hfx
      all_goals
        first
        | exact Option.noConfusion hfx
        | (rename_i hxs
           cases Option.some.inj hfx
           exact ⟨rfl, hxs⟩)
  · exact absurd hb (List.not_mem_nil b)

lemma dpi_xx_part2_mem {ctx : Ctx} {cs : cross_sections}
    {b : CollisionBranch} (hb : b ∈ dpi_xx_part2 ctx cs) :
    b.ptype = ProcessType.TwoToTwo := by
  dsimp only [dpi_xx_part2] at hb
  split at hb
  · obtain ⟨pn, _, hfx⟩ := List.mem_filterMap.mp hb
    repeat' split at hfx
    all_goals
      first
      | exact Option.noConfusion hfx
      | (cases Option.some.inj hfx; rfl)
  · exact absurd hb (List.not_mem_nil b)

lemma dpi_xx_mem {ctx : Ctx} {cs : cross_sections} {bits : ReactionsBitSet}
    {b : CollisionBranch} (hb : b ∈ dpi_xx ctx cs bits) :
    b.ptype = ProcessType.TwoToTwo := by
  unfold dpi_xx at hb
  rcases List.mem_append.mp hb with h | h
  · exact (dpi_xx_part1_mem h).1
  · exact dpi_xx_part2_mem h

lemma dn_xx_mem {ctx : Ctx} {cs : cross_sections} {bits : ReactionsBitSet}
    {b : CollisionBranch} (hb : b ∈ dn_xx ctx cs bits) :
    b.ptype = ProcessType.TwoToTwo := by
  unfold dn_xx at hb
  obtain ⟨pn, _, hfx⟩ := List.mem_filterMap.mp hb
  dsimp only at hfx
  repeat' split at hfx
  all_goals
    first
    | exact Option.noConfusion hfx
    | (cases Option.some.inj hfx; rfl)

lemma two_to_two_mem {ctx : Ctx} {cs : cross_sections}
    {bits : ReactionsBitSet} {b : CollisionBranch}
    (hb : b ∈ two_to_two ctx cs bits) :
    b.ptype = ProcessType.TwoToTwo := by
  unfold two_to_two at hb
  dsimp only at hb
  repeat' split at hb
  all_goals
    first
    | exact absurd hb (List.not_mem_nil b)
    | exact (nn_xx_mem hb).1
    | exact (bb_xx_except_nn_mem hb).1
    | exact (nk_xx_mem hb).1
    | exact (ypi_xx_mem hb).1
    | exact (deltak_xx_mem hb).1
    | exact dn_xx_mem hb
    | exact dpi_xx_mem hb

lemma two_to_one_mem {ctx : Ctx} {cs : cross_sections} {b : CollisionBranch}
    (hb : b ∈ two_to_one ctx cs) :
    b.ptype = ProcessType.TwoToOne ∧ really_small < b.weight := by
  unfold two_to_one at hb
  obtain ⟨res, _, hfx⟩ := List.mem_filterMap.mp hb
  dsimp only at hfx
  repeat' split at hfx
  all_goals
    first
    | exact Option.noConfusion hfx
    | (rename_i hcond; cases Option.some.inj hfx; exact ⟨rfl, hcond⟩)

lemma string_excitation_mem {ctx : Ctx} {cs : cross_sections} {hsp : Bool}
    {r : ℚ} {cl : CollisionBranchList} {b : CollisionBranch}
    (hok : string_excitation ctx cs hsp r = Except.ok cl) (hb : b ∈ cl) :
    b.ptype = ProcessType.StringSoft ∨ b.ptype = ProcessType.StringHard := by
  unfold string_excitation at hok
  split at hok
  · exact Except.noConfusion hok
  · dsimp only at hok
    split at hok
    · split at hok
      · exact Except.noConfusion hok
      · split at hok
        · cases Except.ok.inj hok
          rcases List.mem_append.mp hb with h | h
          · split at h
            · cases List.mem_singleton.mp h
              exact Or.inl rfl
            · exact absurd h (List.not_mem_nil b)
          · split at h
            · cases List.mem_singleton.mp h
              exact Or.inr rfl
            · exact absurd h (List.not_mem_nil b)
        · exact Except.noConfusion hok
    · cases Except.ok.inj hok
      exact absurd hb (List.not_mem_nil b)

lemma NNbar_creation_mem {ctx : Ctx} {cs : cross_sections}
    {b : CollisionBranch} (hb : b ∈ NNbar_creation ctx cs) :
    b.ptype = ProcessType.TwoToTwo := by
  unfold NNbar_creation at hb
  dsimp only at hb
  split at hb
  · exact absurd hb (List.not_mem_nil b)
  · simp only [List.mem_cons, List.not_mem_nil, or_false] at hb
    rcases hb with rfl | rfl <;> rfl

lemma nnbar_append_suffix (ctx : Ctx) (cs : cross_sections)
    (nnt : NNbarTreatment) (pl0 : CollisionBranchList) :
    ∃ suf, nnbar_append ctx cs nnt pl0 = pl0 ++ suf ∧
      ∀ b ∈ suf, b.ptype = ProcessType.TwoToTwo := by
  unfold nnbar_append
  dsimp only
  split
  · split
    · split
      · refine ⟨[NNbar_annihilation ctx cs (sum_xs_of pl0)] ++
          NNbar_creation ctx cs, by rw [List.append_assoc], ?_⟩
        intro b hb
        rcases List.mem_append.mp hb with hb | hb
        · cases List.mem_singleton.mp hb
          rfl
        · exact NNbar_creation_mem hb
      · exact ⟨NNbar_creation ctx cs, rfl, fun b hb => NNbar_creation_mem hb⟩
    · split
      · refine ⟨[NNbar_annihilation ctx cs (sum_xs_of pl0)], rfl, ?_⟩
        intro b hb
        cases List.mem_singleton.mp hb
        rfl
      · exact ⟨[], by simp, by simp⟩
  · exact ⟨[], by simp, by simp⟩

lemma nucleon_pdg_not_pion {c : Int} (h : is_nucleon_pdg c = true) :
    is_pion_pdg c = false := by
  rcases (is_nucleon_pdg_iff c).mp h with rfl | rfl | rfl | rfl <;> decide

lemma nucleon_pdg_not_kaon {c : Int} (h : is_nucleon_pdg c = true) :
    is_kaon_pdg c = false := by
  rcases (is_nucleon_pdg_iff c).mp h with rfl | rfl | rfl | rfl <;> decide

lemma nn_el_ok {ctx : Ctx} {cs : cross_sections} {w : ℚ}
    (h : nn_el ctx cs = Except.ok w) :
    w = (if cs.t1.pdg = cs.t2.pdg then ctx.ppElastic (cs.sqrt_s * cs.sqrt_s)
      else if cs.t1.pdg = -cs.t2.pdg then
        ctx.ppbarElastic (cs.sqrt_s * cs.sqrt_s)
      else ctx.npElastic (cs.sqrt_s * cs.sqrt_s)) ∧ 0 < w := by
  obtain ⟨sel, hsel⟩ : ∃ sel,
      (if cs.t1.pdg = cs.t2.pdg then ctx.ppElastic (cs.sqrt_s * cs.sqrt_s)
        else if cs.t1.pdg = -cs.t2.pdg then
          ctx.ppbarElastic (cs.sqrt_s * cs.sqrt_s)
        else ctx.npElastic (cs.sqrt_s * cs.sqrt_s)) = sel := ⟨_, rfl⟩
  unfold nn_el at h
  dsimp only at h
  rw [hsel] at h ⊢
  split at h
  · rename_i hpos
    cases Except.ok.inj h
    exact ⟨rfl, hpos⟩
  · exact Except.noConfusion h

lemma elastic_parametrization_ok_cases {ctx : Ctx} {cs : cross_sections}
    {w : ℚ} (h : elastic_parametrization ctx cs = Except.ok w) :
    (((is_nucleon_pdg cs.t1.pdg && is_pion_pdg cs.t2.pdg) ||
        (is_nucleon_pdg cs.t2.pdg && is_pion_pdg cs.t1.pdg)) = true →
      npi_el ctx cs = Except.ok w) ∧
    (((is_nucleon_pdg cs.t1.pdg && is_pion_pdg cs.t2.pdg) ||
        (is_nucleon_pdg cs.t2.pdg && is_pion_pdg cs.t1.pdg)) = false →
      ((is_nucleon_pdg cs.t1.pdg && is_kaon_pdg cs.t2.pdg) ||
        (is_nucleon_pdg cs.t2.pdg && is_kaon_pdg cs.t1.pdg)) = true →
      nk_el ctx cs = Except.ok w) ∧
    ((is_nucleon_pdg cs.t1.pdg && is_nucleon_pdg cs.t2.pdg &&
        decide (antiparticle_sign_pdg cs.t1.pdg =
          antiparticle_sign_pdg cs.t2.pdg)) = true →
      w = (if cs.t1.pdg = cs.t2.pdg then
          ctx.ppElastic (cs.sqrt_s * cs.sqrt_s)
        else if cs.t1.pdg = -cs.t2.pdg then
          ctx.ppbarElastic (cs.sqrt_s * cs.sqrt_s)
        else ctx.npElastic (cs.sqrt_s * cs.sqrt_s)) ∧ 0 < w) := by
  unfold elastic_parametrization at h
  dsimp only at h
  refine ⟨?_, ?_, ?_⟩
  · intro hg
    rw [if_pos hg] at h
    exact h
  · intro hg1 hg2
    rw [if_neg (by simp [hg1]), if_pos hg2] at h
    exact h
  · intro hg
    have h12 : is_nucleon_pdg cs.t1.pdg = true ∧
        is_nucleon_pdg cs.t2.pdg = true := by
      simp only [Bool.and_eq_true] at hg
      exact hg.1
    have hpi1 := nucleon_pdg_not_pion h12.1
    have hpi2 := nucleon_pdg_not_pion h12.2
    have hk1 := nucleon_pdg_not_kaon h12.1
    have hk2 := nucleon_pdg_not_kaon h12.2
    rw [if_neg (by simp [hpi1, hpi2]), if_neg (by simp [hk1, hk2]),
      if_pos hg] at h
    exact nn_el_ok h

lemma elastic_ok_shape {ctx : Ctx} {cs : cross_sections} {ep : ℚ}
    {br : CollisionBranch} (h : elastic ctx cs ep = Except.ok br) :
    ∃ w, br = ⟨[cs.t1, cs.t2], w, ProcessType.Elastic⟩ ∧
      (0 ≤ ep → w = ep) ∧
      (ep < 0 → elastic_parametrization ctx cs = Except.ok w) := by
  unfold elastic at h
  split at h
  · rename_i hpos
    cases Except.ok.inj h
    exact ⟨ep, rfl, fun _ => rfl, fun hneg => absurd hpos (not_le.mpr hneg)⟩
  · rename_i hneg
    split at h
    · rename_i x hx
      cases Except.ok.inj h
      exact ⟨x, rfl, fun hpos => absurd hpos hneg, fun _ => hx⟩
    · exact Except.noConfusion h

lemma elastic_cond_iff (e n1 n2 : Bool) (p q : Prop) [Decidable p]
    [Decidable q] :
    ((e && !((n1 && n2) && decide p && decide q)) = true) ↔
      (e = true ∧ ¬(n1 = true ∧ n2 = true ∧ p ∧ q)) := by
  by_cases hp : p <;> by_cases hq : q <;> cases e <;> cases n1 <;>
    cases n2 <;> simp [hp, hq]

/-- C1: generate_collision_list includes an elastic branch iff the
Elastic bit is set and the pair is not two nucleons of equal antiparticle
sign below low_snn_cut; when included the branch is first, with weight
elastic_parameter when nonnegative and the pair-type parametrization of
elastic_parametrization otherwise: the nucleon-pion table for an N-pi
pair, the nucleon-kaon table for an N-K pair, and for two nucleons of
equal antiparticle sign the positive pp/ppbar/np elastic selection. -/
theorem generate_elastic_gating (ctx : Ctx) (cs : cross_sections)
    (ep low_snn_cut : ℚ) (t21 : Bool) (bits : ReactionsBitSet)
    (ssw : Bool) (nnt : NNbarTreatment) (hsp : Bool) (r1 r2 : ℚ)
    (l : CollisionBranchList)
    (hok : generate_collision_list ctx cs ep t21 bits low_snn_cut ssw nnt
      hsp r1 r2 = Except.ok l) :
    ((∃ b ∈ l, b.ptype = ProcessType.Elastic) ↔
      (bits.elastic = true ∧
        ¬(cs.t1.is_nucleon = true ∧ cs.t2.is_nucleon = true ∧
          cs.t1.antiparticle_sign = cs.t2.antiparticle_sign ∧
          cs.sqrt_s < low_snn_cut))) ∧
    (bits.elastic = true →
      ¬(cs.t1.is_nucleon = true ∧ cs.t2.is_nucleon = true ∧
        cs.t1.antiparticle_sign = cs.t2.antiparticle_sign ∧
        cs.sqrt_s < low_snn_cut) →
      ∃ w rest, l = ⟨[cs.t1, cs.t2], w, ProcessType.Elastic⟩ :: rest ∧
        (0 ≤ ep → w = ep) ∧
        (ep < 0 → elastic_parametrization ctx cs = Except.ok w ∧
          (((is_nucleon_pdg cs.t1.pdg && is_pion_pdg cs.t2.pdg) ||
              (is_nucleon_pdg cs.t2.pdg && is_pion_pdg cs.t1.pdg)) = true →
            npi_el ctx cs = Except.ok w) ∧
          (((is_nucleon_pdg cs.t1.pdg && is_pion_pdg cs.t2.pdg) ||
              (is_nucleon_pdg cs.t2.pdg && is_pion_pdg cs.t1.pdg)) =
              false →
            ((is_nucleon_pdg cs.t1.pdg && is_kaon_pdg cs.t2.pdg) ||
              (is_nucleon_pdg cs.t2.pdg && is_kaon_pdg cs.t1.pdg)) =
              true →
            nk_el ctx cs = Except.ok w) ∧
          ((is_nucleon_pdg cs.t1.pdg && is_nucleon_pdg cs.t2.pdg &&
              decide (antiparticle_sign_pdg cs.t1.pdg =
                antiparticle_sign_pdg cs.t2.pdg)) = true →
            w = (if cs.t1.pdg = cs.t2.pdg then
                ctx.ppElastic (cs.sqrt_s * cs.sqrt_s)
              else if cs.t1.pdg = -cs.t2.pdg then
                ctx.ppbarElastic (cs.sqrt_s * cs.sqrt_s)
              else ctx.npElastic (cs.sqrt_s * cs.sqrt_s)) ∧ 0 < w))) := by
  unfold generate_collision_list at hok
  dsimp only at hok
  split at hok
  · rename_i l1 l2 heq1 heq2
    cases Except.ok.inj hok
    obtain ⟨suf, hsuf, hsufT⟩ := nnbar_append_suffix ctx cs nnt (l1 ++ l2)
    rw [hsuf]
    have hmid : ∀ b ∈ l2, b.ptype ≠ ProcessType.Elastic := by
      intro b hb
      split at heq2
      · rcases string_excitation_mem heq2 hb with h | h <;> simp [h]
      · cases Except.ok.inj heq2
        rcases List.mem_append.mp hb with h | h
        · split at h
          · simp [(two_to_one_mem h).1]
          · exact absurd h (List.not_mem_nil b)
        · split at h
          · simp [two_to_two_mem h]
          · exact absurd h (List.not_mem_nil b)
    constructor
    · constructor
      · rintro ⟨b, hb, hbel⟩
        rcases List.mem_append.mp hb with hbp | hbs
        · rcases List.mem_append.mp hbp with hb1 | hb2
          · split at heq1
            · rename_i hC
              exact (elastic_cond_iff _ _ _ _ _).mp hC
            · cases Except.ok.inj heq1
              exact absurd hb1 (List.not_mem_nil b)
          · exact absurd hbel (hmid b hb2)
        · exact absurd hbel (by simp [hsufT b hbs])
      · intro hP
        have hC := (elastic_cond_iff bits.elastic cs.t1.is_nucleon
          cs.t2.is_nucleon
          (cs.t1.antiparticle_sign = cs.t2.antiparticle_sign)
          (cs.sqrt_s < low_snn_cut)).mpr hP
        split at heq1
        · split at heq1
          · rename_i br heqel
            cases Except.ok.inj heq1
            obtain ⟨w, hbr, _, _⟩ := elastic_ok_shape heqel
            exact ⟨br, by simp, by rw [hbr]⟩
          · exact Except.noConfusion heq1
        · rename_i hC2
          exact absurd hC hC2
    · intro hbE hbR
      have hC := (elastic_cond_iff bits.elastic cs.t1.is_nucleon
        cs.t2.is_nucleon
        (cs.t1.antiparticle_sign = cs.t2.antiparticle_sign)
        (cs.sqrt_s < low_snn_cut)).mpr ⟨hbE, hbR⟩
      split at heq1
      · split at heq1
        · rename_i br heqel
          cases Except.ok.inj heq1
          obtain ⟨w, hbr, hw1, hw2⟩ := elastic_ok_shape heqel
          refine ⟨w, l2 ++ suf, ?_, hw1, fun hneg => ?_⟩
          · rw [hbr]
            simp
          · have hep := hw2 hneg
            exact ⟨hep, (elastic_parametrization_ok_cases hep).1,
              (elastic_parametrization_ok_cases hep).2.1,
              (elastic_parametrization_ok_cases hep).2.2⟩
        · exact Except.noConfusion heq1
      · rename_i hC2
        exact absurd hC hC2
  · exact Except.noConfusion hok
  · exact Except.noConfusion hok

/-- C2: with Resonances treatment and a nucleon meeting its own
antiparticle, the returned list ends with the NNbar-annihilation branch
with products h1(1170), rho0 and weight max(0, ppbar_total(s) minus the
sum of all branches appended before it). -/
theorem generate_nnbar_residual (ctx : Ctx) (cs : cross_sections)
    (ep low_snn_cut : ℚ) (t21 : Bool) (bits : ReactionsBitSet)
    (ssw hsp : Bool) (r1 r2 : ℚ) (l : CollisionBranchList)
    (hnuc : cs.t1.is_nucleon = true)
    (hanti : cs.t2.pdg = -cs.t1.pdg)
    (hok : generate_collision_list ctx cs ep t21 bits low_snn_cut ssw
      NNbarTreatment.Resonances hsp r1 r2 = Except.ok l) :
    ∃ pre, l = pre ++
      [⟨[ctx.find 10223, ctx.find 113],
        max 0 (ctx.ppbarTotal (cs.sqrt_s * cs.sqrt_s) - sum_xs_of pre),
        ProcessType.TwoToTwo⟩] := by
  unfold generate_collision_list at hok
  dsimp only at hok
  split at hok
  · rename_i l1 l2 heq1 heq2
    cases Except.ok.inj hok
    refine ⟨l1 ++ l2, ?_⟩
    have hcre : ¬((cs.t1.pdg = 113 ∧ cs.t2.pdg = 10223) ∨
        (cs.t1.pdg = 10223 ∧ cs.t2.pdg = 113)) := by
      have hpdg := (is_nucleon_pdg_iff cs.t1.pdg).mp hnuc
      rintro (⟨h1, _⟩ | ⟨h1, _⟩) <;> rcases hpdg with h | h | h | h <;> omega
    have hann : (cs.t1.is_nucleon &&
        decide (cs.t2.pdg = -cs.t1.pdg)) = true := by
      simp [hnuc, hanti]
    unfold nnbar_append
    dsimp only
    rw [if_pos (rfl :
      NNbarTreatment.Resonances = NNbarTreatment.Resonances)]
    rw [if_neg hcre, if_pos hann]
    rfl
  · exact Except.noConfusion hok
  · exact Except.noConfusion hok

/-- C3 counterexample: a run of generate_collision_list with a constant
elastic parameter of 0 emits an elastic branch of weight 0, and a
proton-antiproton run under Resonances treatment whose elastic parameter
exceeds the parametrized total emits the NNbar annihilation branch with
weight 0; neither weight is strictly greater than really_small, so
branches at or below the epsilon are not all dropped. -/
theorem small_weight_emitted :
    (generate_collision_list ctx0 cs_mm 0 false bits_el 0 false
        NNbarTreatment.None false 0 0 =
      Except.ok [⟨[mesonX, mesonX], 0, ProcessType.Elastic⟩] ∧
    ¬(∀ b ∈ [(⟨[mesonX, mesonX], 0, ProcessType.Elastic⟩ :
        CollisionBranch)], really_small < b.weight)) ∧
    (generate_collision_list ctx0 cs_ppbar 2 false bits_el 0 false
        NNbarTreatment.Resonances false 0 0 =
      Except.ok [⟨[protonT, antiprotonT], 2, ProcessType.Elastic⟩,
        ⟨[h1T, rhoT], 0, ProcessType.TwoToTwo⟩] ∧
    ¬(∀ b ∈ [(⟨[protonT, antiprotonT], 2, ProcessType.Elastic⟩ :
            CollisionBranch),
          ⟨[h1T, rhoT], 0, ProcessType.TwoToTwo⟩],
        really_small < b.weight)) := by
  refine ⟨⟨rfl, ?_⟩, ⟨by with_unfolding_all rfl, ?_⟩⟩
  · intro h
    exact absurd (h _ (List.mem_singleton_self _))
      (by norm_num [really_small])
  · intro h
    exact absurd
      (h ⟨[h1T, rhoT], 0, ProcessType.TwoToTwo⟩ (by simp))
      (by norm_num [really_small])

/-- C3 (amended): the candidate channels that go through add_channel,
and those of the 2 to 1, NN production, absorption, NK, Delta K and Y pi
builders and of the pion-deuteron to nucleon-nucleon loop of dpi_xx, are
emitted only with weight strictly above really_small; dpi_xx is exactly
that checked loop followed by the pion-d-prime loop, and the NNbar
annihilation branch is built with its max(0, total minus sum) weight
with no really_small check. -/
theorem channels_below_epsilon_dropped (ctx : Ctx) (cs : cross_sections)
    (l : CollisionBranchList) (f : Unit → ℚ) (s x0 : ℚ)
    (ta tb : ParticleType) (l1 l2 : List ParticleType)
    (integ : ParticleType → ParticleType → ℚ) (anti : Bool)
    (bits : ReactionsBitSet) :
    (∀ b ∈ add_channel l f s ta tb, b ∈ l ∨ really_small < b.weight) ∧
    (∀ b ∈ two_to_one ctx cs, really_small < b.weight) ∧
    (∀ b ∈ find_nn_xsection_from_type ctx cs l1 l2 integ,
      really_small < b.weight) ∧
    (∀ b ∈ bar_bar_to_nuc_nuc ctx cs anti, really_small < b.weight) ∧
    (∀ b ∈ nk_xx ctx cs bits, really_small < b.weight) ∧
    (∀ b ∈ deltak_xx ctx cs bits, really_small < b.weight) ∧
    (∀ b ∈ ypi_xx ctx cs bits, really_small < b.weight) ∧
    (∀ b ∈ dpi_xx_part1 ctx cs, really_small < b.weight) ∧
    (dpi_xx ctx cs bits = dpi_xx_part1 ctx cs ++ dpi_xx_part2 ctx cs) ∧
    (NNbar_annihilation ctx cs x0 =
      ⟨[ctx.find 10223, ctx.find 113],
        max 0 (ctx.ppbarTotal (cs.sqrt_s * cs.sqrt_s) - x0),
        ProcessType.TwoToTwo⟩) :=
  ⟨fun _ hb => (mem_add_channel hb).imp id And.right,
   fun _ hb => (two_to_one_mem hb).2,
   fun _ hb => (find_nn_xsection_mem hb).2,
   fun _ hb => (bar_bar_to_nuc_nuc_mem hb).2,
   fun _ hb => (nk_xx_mem hb).2,
   fun _ hb => (deltak_xx_mem hb).2,
   fun _ hb => (ypi_xx_mem hb).2,
   fun _ hb => (dpi_xx_part1_mem hb).2,
   rfl, rfl⟩

theorem channels_below_epsilon_dropped_witness :
    (⟨[mesonX, mesonX], 1, ProcessType.TwoToTwo⟩ : CollisionBranch) ∈
        ([] : CollisionBranchList) ∨
      really_small < (1 : ℚ) :=
  (channels_below_epsilon_dropped ctx0 cs_mm [] (fun _ => 1) 5 0 mesonX
    mesonX [] [] (fun _ _ => 1) false bits_el).1 _
    (by
      have he : add_channel [] (fun _ => 1) 5 mesonX mesonX =
          [⟨[mesonX, mesonX], 1, ProcessType.TwoToTwo⟩] := by
        with_unfolding_all rfl
      rw [he]
      exact List.mem_singleton_self _)

theorem generate_elastic_gating_witness :
    ∃ w rest,
      [(⟨[mesonX, mesonX], 0, ProcessType.Elastic⟩ : CollisionBranch)] =
        ⟨[cs_mm.t1, cs_mm.t2], w, ProcessType.Elastic⟩ :: rest ∧
      ((0 : ℚ) ≤ -1 → w = -1) ∧
      ((-1 : ℚ) < 0 → elastic_parametrization ctx0 cs_mm = Except.ok w ∧
        (((is_nucleon_pdg cs_mm.t1.pdg && is_pion_pdg cs_mm.t2.pdg) ||
            (is_nucleon_pdg cs_mm.t2.pdg && is_pion_pdg cs_mm.t1.pdg)) =
            true →
          npi_el ctx0 cs_mm = Except.ok w) ∧
        (((is_nucleon_pdg cs_mm.t1.pdg && is_pion_pdg cs_mm.t2.pdg) ||
            (is_nucleon_pdg cs_mm.t2.pdg && is_pion_pdg cs_mm.t1.pdg)) =
            false →
          ((is_nucleon_pdg cs_mm.t1.pdg && is_kaon_pdg cs_mm.t2.pdg) ||
            (is_nucleon_pdg cs_mm.t2.pdg && is_kaon_pdg cs_mm.t1.pdg)) =
            true →
          nk_el ctx0 cs_mm = Except.ok w) ∧
        ((is_nucleon_pdg cs_mm.t1.pdg && is_nucleon_pdg cs_mm.t2.pdg &&
            decide (antiparticle_sign_pdg cs_mm.t1.pdg =
              antiparticle_sign_pdg cs_mm.t2.pdg)) = true →
          w = (if cs_mm.t1.pdg = cs_mm.t2.pdg then
              ctx0.ppElastic (cs_mm.sqrt_s * cs_mm.sqrt_s)
            else if cs_mm.t1.pdg = -cs_mm.t2.pdg then
              ctx0.ppbarElastic (cs_mm.sqrt_s * cs_mm.sqrt_s)
            else ctx0.npElastic (cs_mm.sqrt_s * cs_mm.sqrt_s)) ∧ 0 < w)) :=
  (generate_elastic_gating ctx0 cs_mm (-1) 0 false bits_el false
    NNbarTreatment.None false 0 0
    [⟨[mesonX, mesonX], 0, ProcessType.Elastic⟩]
    (by with_unfolding_all rfl)).2
    rfl (fun h => Bool.noConfusion h.1)

theorem generate_nnbar_residual_witness :
    ∃ pre,
      [(⟨[h1T, rhoT], 1, ProcessType.TwoToTwo⟩ : CollisionBranch)] =
        pre ++
          [⟨[ctx0.find 10223, ctx0.find 113],
            max 0 (ctx0.ppbarTotal (cs_ppbar.sqrt_s * cs_ppbar.sqrt_s) -
              sum_xs_of pre), ProcessType.TwoToTwo⟩] :=
  generate_nnbar_residual ctx0 cs_ppbar 0 0 false bits_none false false 0 0
    [⟨[h1T, rhoT], 1, ProcessType.TwoToTwo⟩] rfl rfl
    (by with_unfolding_all rfl)

theorem string_excitation_budget_witness :
    (string_budget 9 1 1 1).1 + (string_budget 9 1 1 1).2.1 +
        (string_budget 9 1 1 1).2.2.1 + (string_budget 9 1 1 1).2.2.2 =
      9 ∧
      ∀ cl, string_excitation ctx4 cs4 true 0 = Except.ok cl →
        cl = (if (0 : ℚ) < 9 - 0 then
            [⟨[], 9 - 0, ProcessType.StringSoft⟩] else []) ++
          (if (0 : ℚ) < 0 then
            [⟨[], (0 : ℚ), ProcessType.StringHard⟩] else []) :=
  string_excitation_budget ctx4 cs4 0 1 1 1 1 9 0 (by norm_num)
    (by norm_num) (by norm_num) rfl rfl (by with_unfolding_all rfl)
    (by with_unfolding_all rfl)

theorem nn_to_resonance_matrix_element_cases_witness :
    nn_to_resonance_matrix_element ctx0 2 deltaT protonT 0 =
      68 / ctx0.rpow (2 - 1104 / 1000) (1951 / 1000) :=
  (nn_to_resonance_matrix_element_cases ctx0 2 deltaT protonT 0).2.1
    (by norm_num [uplmt_of, deltaT, protonT, mesonX]) (by rfl)

theorem elastic_positivity_check_witness :
    nn_el ctx0 ⟨protonT, protonT, 938 / 1000, 938 / 1000, 2⟩ =
      Except.ok 1 :=
  (elastic_positivity_check ctx0 ⟨protonT, protonT, 938 / 1000,
    938 / 1000, 2⟩ 1 0 rfl rfl).1.1 (by norm_num)

theorem NNbar_creation_cases_witness :
    NNbar_creation ctx0 cs_rh =
      [⟨[protonT, antiprotonT], 0, ProcessType.TwoToTwo⟩,
       ⟨[neutronT, antineutronT], 0, ProcessType.TwoToTwo⟩] := by
  have h := (NNbar_creation_cases ctx0 cs_rh).2
    (by norm_num [ctx0, cs_rh, protonT, mesonX])
  rw [h]
  norm_num [ctx0]

end SmashXS
